import Mathlib

set_option maxRecDepth 16384

/-!
Verification development for the Nextcloud-Monitor polling/normalization core
(`src/ncmonitor_qt.py`).  The Python code is shallowly embedded: JSON-like
payload values become the inductive `PyValue`, the pure utility functions
(`safe_int`, `format_timedelta`, `format_bytes`) become Lean functions with the
same names, the fallible data-processing method `update_gui_metrics` becomes a
function into `Except String`, and the Qt application state touched by
`apply_new_config` / `start_fetch` / the worker-completion signal handlers
becomes an explicit `AppState` record with one transition function per method.

Modelling conventions (noted once here):
* `int(float(value))` is modelled exactly over the `PyValue` alphabet:
  `float(str)` covers ASCII whitespace stripping, sign, PEP 515 underscores,
  exponents and the `inf`/`infinity`/`nan` words; finite values convert by
  correctly rounded (half-to-even) conversion to a 53-bit significand with
  the true IEEE overflow threshold `2^1024 - 2^970`, then truncate toward
  zero.  An infinite result makes `int()` raise `OverflowError`, which the
  `except (ValueError, TypeError)` handler of `safe_int` does NOT catch, so
  that error propagates (`Except.error`).  Unicode digits and Unicode
  whitespace, which CPython also accepts, are outside the modelled alphabet;
* Python's `"%.2f"` formatting is exact rational rounding to two decimals
  (round half to even), `renderFixed2`; the float `math.log` inside
  `format_bytes` is idealised as the exact integer logarithm — see `fbIndex`
  for where the real double computation deviates;
* `str(x)` / f-string interpolation is `pyStr`; `repr` quoting of strings uses
  a single-quote character built with `Char.ofNat 39`, escaping is not
  modelled; `json.dumps(data, indent=2)` is modelled by `pyDump` (the exact
  whitespace of the raw-diagnostic text is irrelevant to every claim);
* Python exceptions become `Except.error` carrying a short tag; the exact
  exception text is compared against the spec only where a claim demands it
  (the `fetch_metrics` error strings, which are modelled verbatim).
-/

/-- JSON-like Python value as produced by `response.json()`: `None`, `bool`,
`int`, `str`, `list`, `dict` (string keys, as in JSON). -/
inductive PyValue where
  | none : PyValue
  | bool : Bool → PyValue
  | int : Int → PyValue
  | str : String → PyValue
  | list : List PyValue → PyValue
  | dict : List (String × PyValue) → PyValue

/-- Looks a key up in a `dict`-shaped value; `Option.none` for a missing key or
a non-dict receiver. -/
def pyLookup : PyValue → String → Option PyValue
  | .dict kvs, k => List.lookup k kvs
  | _, _ => Option.none

/-- Total version of Python `d.get(k, default)` for an association list. -/
def lookupD (kvs : List (String × PyValue)) (k : String) (d : PyValue) : PyValue :=
  (List.lookup k kvs).getD d

/-- Python `d.get(k, default)`: `AttributeError` when the receiver is not a
dict. -/
def pyGet (v : PyValue) (k : String) (d : PyValue) : Except String PyValue :=
  match v with
  | .dict kvs => .ok (lookupD kvs k d)
  | _ => .error ("AttributeError: get " ++ k)

/-- Python `d[k]` subscription with a string key: `KeyError` on a missing key,
`TypeError` on a non-dict receiver. -/
def pyIndex (v : PyValue) (k : String) : Except String PyValue :=
  match v with
  | .dict kvs =>
    match List.lookup k kvs with
    | some w => .ok w
    | Option.none => .error ("KeyError: " ++ k)
  | _ => .error ("TypeError: not subscriptable at " ++ k)

/-- Python `len(v)` for the shapes it accepts. -/
def pyLen (v : PyValue) : Except String Int :=
  match v with
  | .list xs => .ok xs.length
  | .str s => .ok s.length
  | .dict kvs => .ok kvs.length
  | _ => .error "TypeError: no len"

/-- Python `v[i]` with a non-negative integer index. -/
def pyIndexNat (v : PyValue) (i : Nat) : Except String PyValue :=
  match v with
  | .list xs =>
    match xs.get? i with
    | some w => .ok w
    | Option.none => .error "IndexError"
  | .str s =>
    match s.data.get? i with
    | some c => .ok (.str (String.mk [c]))
    | Option.none => .error "IndexError"
  | _ => .error "TypeError: not int subscriptable"

/-- Python truthiness of a value. -/
def pyTruthy : PyValue → Bool
  | .none => false
  | .bool b => b
  | .int n => n != 0
  | .str s => s != ""
  | .list xs => !xs.isEmpty
  | .dict kvs => !kvs.isEmpty

/-- Generic string join with a separator, modelling Python `sep.join(list)`. -/
def joinStr (sep : String) : List String → String
  | [] => ""
  | [a] => a
  | a :: rest => a ++ sep ++ joinStr sep rest

/-- Single-quote character, used by the `repr` rendering of strings. -/
def sqChar : String := String.singleton (Char.ofNat 39)

mutual

/-- Python `repr` of a JSON-like value (string escaping not modelled). -/
def pyRepr : PyValue → String
  | .none => "None"
  | .bool b => if b then "True" else "False"
  | .int n => toString n
  | .str s => sqChar ++ s ++ sqChar
  | .list xs => "[" ++ pyReprList xs ++ "]"
  | .dict kvs => "\x7b" ++ pyReprDict kvs ++ "\x7d"

/-- Comma-joined reprs of the elements of a list. -/
def pyReprList : List PyValue → String
  | [] => ""
  | [x] => pyRepr x
  | x :: rest => pyRepr x ++ ", " ++ pyReprList rest

/-- Comma-joined reprs of the entries of a dict. -/
def pyReprDict : List (String × PyValue) → String
  | [] => ""
  | [p] => sqChar ++ p.1 ++ sqChar ++ ": " ++ pyRepr p.2
  | p :: rest => sqChar ++ p.1 ++ sqChar ++ ": " ++ pyRepr p.2 ++ ", " ++ pyReprDict rest

end

/-- Python `str(v)`: like `repr` except that a bare string is returned
unquoted. -/
def pyStr : PyValue → String
  | .str s => s
  | v => pyRepr v

/-- Stands in for `json.dumps(data, indent=2)` in the raw-diagnostic text; the
exact whitespace is irrelevant to every claim. -/
def pyDump (v : PyValue) : String := pyRepr v

/-- Numeric value of a decimal-digit list, most significant first. -/
def digitsToNat (l : List Char) : Nat :=
  l.foldl (fun a c => a * 10 + (c.toNat - 48)) 0

/-- Whitespace stripped by Python `float(str)`: ASCII space and the five
control characters tab, newline, vertical tab, form feed, carriage return. -/
def pyWsChar (c : Char) : Bool :=
  c = ' ' || c = Char.ofNat 9 || c = Char.ofNat 10 || c = Char.ofNat 11 ||
  c = Char.ofNat 12 || c = Char.ofNat 13

/-- Leading and trailing whitespace removal as performed by `float(str)`. -/
def stripWs (l : List Char) : List Char :=
  ((l.dropWhile pyWsChar).reverse.dropWhile pyWsChar).reverse

/-- Splits an optional leading sign; returns `(negative?, rest)`. -/
def splitSign : List Char → Bool × List Char
  | '-' :: t => (true, t)
  | '+' :: t => (false, t)
  | l => (false, l)

/-- PEP 515 underscore rule of Python numeric strings: every underscore must
be immediately preceded and followed by a digit.  `prev` is the character
before the current position (`Option.none` at the start of the token). -/
def underscoreOkCore : Option Char → List Char → Bool
  | _, [] => true
  | prev, c :: rest =>
    if c = '_' then
      (match prev with
       | some p => p.isDigit
       | Option.none => false) &&
      (match rest with
       | d :: _ => d.isDigit
       | [] => false) &&
      underscoreOkCore (some c) rest
    else underscoreOkCore (some c) rest

/-- Splits a numeric token at the first exponent marker `e`/`E`. -/
def splitExpAux (acc : List Char) : List Char → List Char × Option (List Char)
  | [] => (acc.reverse, Option.none)
  | c :: rest =>
    if c = 'e' || c = 'E' then (acc.reverse, some rest)
    else splitExpAux (c :: acc) rest

/-- Splits a mantissa at the first decimal point. -/
def splitDotAux (acc : List Char) : List Char → List Char × Option (List Char)
  | [] => (acc.reverse, Option.none)
  | c :: rest =>
    if c = '.' then (acc.reverse, some rest)
    else splitDotAux (c :: acc) rest

/-- Result classes of a successful Python `float(str)` parse: NaN, a signed
infinity, or a finite value `(-1)^neg * num * 10^shift` held exactly. -/
inductive PFloat where
  | nan : PFloat
  | inf : Bool → PFloat
  | finite : Bool → Nat → Int → PFloat

/-- The finite-number grammar of `float(str)` after sign and underscore
removal: `digits [. digits] [(e|E) [sign] digits]`, at least one mantissa
digit, at least one exponent digit when the marker is present.  Returns the
significand digits as a natural number and the decimal shift. -/
def parseFiniteTok (l : List Char) : Option (Nat × Int) :=
  let me := splitExpAux [] l
  let md := splitDotAux [] me.1
  let ip := md.1
  let fp := (md.2).getD []
  if ip.all Char.isDigit && fp.all Char.isDigit && !(ip.isEmpty && fp.isEmpty) then
    match me.2 with
    | Option.none => some (digitsToNat (ip ++ fp), -(fp.length : Int))
    | some ex =>
      let se := splitSign ex
      if se.2.isEmpty || !se.2.all Char.isDigit then Option.none
      else
        let ev : Int := if se.1 then -(Int.ofNat (digitsToNat se.2)) else Int.ofNat (digitsToNat se.2)
        some (digitsToNat (ip ++ fp), ev - fp.length)
  else Option.none

/-- Model of CPython `float(str)` as called by `safe_int`: strip ASCII
whitespace, take an optional sign, accept the case-insensitive words
`inf`/`infinity`/`nan`, otherwise parse the decimal/exponent grammar with
PEP 515 underscores.  `Option.none` is a `ValueError`.  Unicode digits and
Unicode whitespace (also accepted by CPython) lie outside the modelled
payload alphabet. -/
def pyFloatParse (s : String) : Option PFloat :=
  let st := splitSign (stripWs s.data)
  let tok := st.2
  let low := tok.map Char.toLower
  if low = "inf".data ∨ low = "infinity".data then some (.inf st.1)
  else if low = "nan".data then some .nan
  else if underscoreOkCore Option.none tok then
    match parseFiniteTok (tok.filter (fun c => c ≠ '_')) with
    | some p => some (.finite st.1 p.1 p.2)
    | Option.none => Option.none
  else Option.none

/-- Fuel-driven floor of the base-2 logarithm. -/
def log2Fuel : Nat → Nat → Nat
  | 0, _ => 0
  | fuel + 1, n => if n ≤ 1 then 0 else log2Fuel fuel (n / 2) + 1

/-- `floor (log2 n)` for `n ≥ 1` (0 at 0); the fuel `n` always suffices. -/
def natLog2 (n : Nat) : Nat := log2Fuel n n

/-- Fuel-driven count of decimal digits. -/
def digCountFuel : Nat → Nat → Nat
  | 0, _ => 0
  | fuel + 1, n => if n = 0 then 0 else digCountFuel fuel (n / 10) + 1

/-- Number of decimal digits of `n` (0 at 0). -/
def digCount10 (n : Nat) : Nat := digCountFuel n n

/-- Whether `2 ^ e ≤ a / b` holds for the exact rational `a / b`. -/
def pow2LE (a b : Nat) (e : Int) : Bool :=
  if 0 ≤ e then decide (b * 2 ^ e.toNat ≤ a) else decide (b ≤ a * 2 ^ (-e).toNat)

/-- IEEE-754 double overflow threshold: rounding half-to-even, `float(v)` is
infinite exactly when `|v| ≥ 2^1024 - 2^970`. -/
def ovThreshold : Nat := 2 ^ 1024 - 2 ^ 970

/-- `int(float(a / b))` for an exact positive rational below the overflow
threshold: round the value half-to-even to a 53-bit significand — the
correctly rounded IEEE-754 double, which is what CPython produces both for
decimal strings and for ints — then truncate the resulting double toward
zero.  Sub-normal rounding detail is irrelevant because every double below
`2^-1022` truncates to 0 either way. -/
def floatTruncCore (a b : Nat) : Nat :=
  let E : Int := (natLog2 a : Int) - (natLog2 b : Int)
  let e : Int := if pow2LE a b E then E else E - 1
  let nd : Nat × Nat :=
    if 0 ≤ 52 - e then (a * 2 ^ (52 - e).toNat, b) else (a, b * 2 ^ (e - 52).toNat)
  let q := nd.1 / nd.2
  let r := nd.1 % nd.2
  let m := if 2 * r < nd.2 then q
           else if nd.2 < 2 * r then q + 1
           else if q % 2 = 0 then q else q + 1
  if 0 ≤ e - 52 then m * 2 ^ (e - 52).toNat else m / 2 ^ (52 - e).toNat

/-- `int(float(a / b))` for a positive exact rational (`a, b ≥ 1`):
`OverflowError` when the rounded double is infinite, else the truncation. -/
def floatTruncPos (a b : Nat) : Except String Nat :=
  if b * ovThreshold ≤ a then
    .error "OverflowError: cannot convert float infinity to integer"
  else .ok (floatTruncCore a b)

/-- `int(float(num * 10^shift))` for `num ≥ 0`: decimal-magnitude guards
(faithful — ten to the 319th already exceeds the overflow threshold, and a
value at or below ten to the minus 400th is far below the smallest
sub-normal, so `float` underflows it to zero) keep the exact computation in
a bounded range; inside the range the exact rational conversion runs. -/
def floatTruncDec (num : Nat) (shift : Int) : Except String Nat :=
  if num = 0 then .ok 0
  else
    let d : Int := digCount10 num
    if 320 ≤ d + shift then
      .error "OverflowError: cannot convert float infinity to integer"
    else if d + shift ≤ -400 then .ok 0
    else if 0 ≤ shift then floatTruncPos (num * 10 ^ shift.toNat) 1
    else floatTruncPos num (10 ^ (-shift).toNat)

/-- Model of `safe_int` (`ncmonitor_qt.py` lines 133-141): `None` and the
empty string return 0, then `int(float(value))` is attempted and the
`except (ValueError, TypeError)` handler returns 0 on those two errors.  An
`OverflowError` — raised by `int()` on an infinite float (strings such as
`"inf"` or `"1e999"`) and by `float()` on an out-of-range int — is NOT in
the handler's tuple and propagates out of `safe_int`.  The float round trip
is modelled exactly: ints below `2^53` are unchanged, larger ints round
half-to-even to a 53-bit significand, finite decimal strings convert by
correctly rounded decimal-to-double conversion, and the integral result is
truncated toward zero; `int(nan)` is a `ValueError`, hence 0. -/
def safe_int : PyValue → Except String Int
  | .none => .ok 0
  | .bool b => .ok (if b then 1 else 0)
  | .int n =>
    if n.natAbs < 2 ^ 53 then .ok n
    else if ovThreshold ≤ n.natAbs then
      .error "OverflowError: int too large to convert to float"
    else .ok (if n < 0 then -(Int.ofNat (floatTruncCore n.natAbs 1))
              else Int.ofNat (floatTruncCore n.natAbs 1))
  | .str s =>
    if s = "" then .ok 0
    else
      match pyFloatParse s with
      | Option.none => .ok 0
      | some PFloat.nan => .ok 0
      | some (PFloat.inf _) =>
        .error "OverflowError: cannot convert float infinity to integer"
      | some (PFloat.finite neg num shift) =>
        match floatTruncDec num shift with
        | .ok t => .ok (if neg then -(t : Int) else (t : Int))
        | .error e => .error e
  | .list _ => .ok 0
  | .dict _ => .ok 0

/-- Groups a reversed digit list into blocks of three, used by the
thousands-separator rendering of `f"{n:,}"`. -/
def chunk3 : List Char → List (List Char)
  | [] => []
  | [a] => [[a]]
  | [a, b] => [[a, b]]
  | a :: b :: c :: rest => [a, b, c] :: chunk3 rest

/-- Decimal rendering of a natural number with `,` thousands separators. -/
def commaGroupNat (m : Nat) : String :=
  let ds := (toString m).data
  let grouped := ((chunk3 ds.reverse).map List.reverse).reverse
  joinStr "," (grouped.map String.mk)

/-- Python `f"{value:,}"`: comma-grouped integer formatting; raises for
values that are not integers (e.g. strings). -/
def fmtComma : PyValue → Except String String
  | .int n => .ok ((if n < 0 then "-" else "") ++ commaGroupNat n.natAbs)
  | .bool b => .ok (if b then "1" else "0")
  | _ => .error "ValueError: comma format on non-numeric value"

/-- Nearest integer to `num / den` (`den > 0`), ties to even — the rounding
used by fixed-point decimal formatting. -/
def roundHalfEven (num den : Int) : Int :=
  let q := num / den
  let r := num % den
  if 2 * r < den then q
  else if 2 * r > den then q + 1
  else if q % 2 = 0 then q else q + 1

/-- Renders the exact rational `num / den` (`den > 0`) with two decimal
places, modelling Python `f"{x:.2f}"` by exact arithmetic. -/
def renderFixed2 (num den : Int) : String :=
  let c := roundHalfEven (num * 100) den
  let sign := if c < 0 then "-" else ""
  let a := c.natAbs
  let frac := a % 100
  sign ++ toString (a / 100) ++ "." ++ (if frac < 10 then "0" ++ toString frac else toString frac)

/-- Python `f"{value:.2f}"`: two-decimal formatting of a numeric value.
CPython formats an int with the `f` presentation type by converting it to a
double first, so an out-of-range int raises `OverflowError`; the double is
integral, so the rendered digits are exactly those of the rounded integer
(`safe_int` on an int is precisely that conversion).  Strings raise
`ValueError`. -/
def fmt2f : PyValue → Except String String
  | .int n => do pure (renderFixed2 (← safe_int (.int n)) 1)
  | .bool b => .ok (renderFixed2 (if b then 1 else 0) 1)
  | _ => .error "ValueError: .2f format on non-numeric value"

/-- The unit table of `format_bytes` (`ncmonitor_qt.py` line 224). -/
def sizesList : List String := ["Bytes", "KB", "MB", "GB", "TB", "PB", "EB", "ZB", "YB"]

/-- Multiplier converting kilobytes from the API response to bytes
(`KB_TO_BYTES`, line 30). -/
def KB_TO_BYTES : Int := 1024

/-- Unit index chosen by `format_bytes` for a positive byte count.  The
source computes `min(math.floor(math.log(b, 1024)), len(sizes) - 1)` with
IEEE-double `math.log`; here the logarithm is idealised as the exact integer
logarithm, realised as a range comparison.  The two deviate near high binade
boundaries, where double rounding selects one unit too high: at
`1024 ** 5 - 1` the float computation already yields index 5 and the program
renders `1.00 PB`.  Display strings built from this function are therefore
the exact-logarithm renderings. -/
def fbIndex (b : Int) : Nat :=
  if b < 1024 then 0
  else if b < 1024 ^ 2 then 1
  else if b < 1024 ^ 3 then 2
  else if b < 1024 ^ 4 then 3
  else if b < 1024 ^ 5 then 4
  else if b < 1024 ^ 6 then 5
  else if b < 1024 ^ 7 then 6
  else if b < 1024 ^ 8 then 7
  else 8

/-- Core of `format_bytes` (lines 215-231) after the `safe_int` coercion:
`0` renders as the literal `"0 Bytes"`, otherwise the value is divided by
`1024 ** i` for the selected unit index and rendered with two decimals. -/
def format_bytes_int (b : Int) : String :=
  if b = 0 then "0 Bytes"
  else
    let i := if b > 0 then fbIndex b else 0
    renderFixed2 b ((1024 : Int) ^ i) ++ " " ++ sizesList.getD i "Bytes"

/-- Model of `format_bytes` (lines 215-231) with the default two decimals:
the internal `safe_int` coercion (whose uncaught `OverflowError` propagates)
followed by the pure rendering. -/
def format_bytes (v : PyValue) : Except String String := do
  pure (format_bytes_int (← safe_int v))

/-- Python `name.rstrip(chr(115))`: drops trailing letters `s`. -/
def rstripS (s : String) : String :=
  String.mk ((s.data.reverse.dropWhile (fun c => c = 's')).reverse)

/-- One component of the human-readable duration: `f"{value} {name}"` when
plural, `f"{value} {name.rstrip(chr(115))}"` when the value is 1
(`ncmonitor_qt.py` line 159). -/
def fmtUnit (v : Int) (name : String) : String :=
  if v > 1 then toString v ++ " " ++ name else toString v ++ " " ++ rstripS name

/-- The `(name, count)` interval table of `format_timedelta` (lines 149-152). -/
def intervals : List (String × Int) :=
  [("years", 31536000), ("days", 86400), ("hours", 3600), ("minutes", 60)]

/-- The accumulation loop of `format_timedelta` (lines 154-159): returns the
rendered non-zero components and the remaining seconds. -/
def tdLoop : List (String × Int) → Int → List String × Int
  | [], s => ([], s)
  | (name, count) :: rest, s =>
    let value := s / count
    if value ≠ 0 then
      let r := tdLoop rest (s - value * count)
      (fmtUnit value name :: r.1, r.2)
    else tdLoop rest s

/-- Model of `format_timedelta` (lines 143-164) after the `safe_int`
coercion. -/
def format_timedelta_int (x : Int) : String :=
  if x ≤ 0 then "N/A or Fresh Start"
  else
    let r := tdLoop intervals x
    if r.1 = [] ∧ r.2 > 0 then toString r.2 ++ " seconds"
    else
      let j := joinStr ", " (r.1.take 3)
      if j = "" then "Just started" else j

/-- Model of `format_timedelta` (lines 143-164), including the `safe_int`
coercion of the argument, whose uncaught `OverflowError` propagates. -/
def format_timedelta (v : PyValue) : Except String String := do
  pure (format_timedelta_int (← safe_int v))

/-- Uptime computation of `update_gui_metrics` (line 803): `now - start` when
the start timestamp is positive and in the past, else 0. -/
def uptime_seconds (start_time_ts current_time_ts : Int) : Int :=
  if start_time_ts > 0 ∧ current_time_ts > start_time_ts then
    current_time_ts - start_time_ts
  else 0

/-- Specification-side unit values for a duration: years, days, hours and
minutes obtained by exact division, largest unit first. -/
def uptimeUnitVals (s : Int) : List (Int × String) :=
  [ (s / 31536000, "years"), (s % 31536000 / 86400, "days"),
    (s % 86400 / 3600, "hours"), (s % 3600 / 60, "minutes") ]

/-- Specification-side rendering of the non-zero duration components, largest
unit first, with singular/plural suffixes. -/
def uptimeComponents (s : Int) : List String :=
  ((uptimeUnitVals s).filter (fun p => p.1 ≠ 0)).map (fun p => fmtUnit p.1 p.2)

/-- Specification-side rendering described by the spec: zero renders as the
fresh-start sentinel, a positive duration under one minute as seconds, and
anything else as the up-to-three largest non-zero units joined by a comma. -/
def uptimeRendered (s : Int) : String :=
  if s ≤ 0 then "N/A or Fresh Start"
  else if s < 60 then toString s ++ " seconds"
  else joinStr ", " ((uptimeComponents s).take 3)

/-- Abstract outcome of the single HTTP attempt inside `fetch_metrics`:
either a 2xx response whose body parse result is given (a parse failure
carries the decoder message), or one of the transport-level failures the
handlers at lines 254-259 distinguish. -/
inductive HttpResponse where
  | ok : Except String PyValue → HttpResponse
  | httpError : String → HttpResponse
  | connError : String → HttpResponse
  | timeout : HttpResponse

/-- Envelope-meta extraction of `fetch_metrics` (lines 248-250):
`data.get(chr(111)...)` chains modelled with their `AttributeError`
possibilities; returns the status field (default `None`) and the message
field (default the literal `Unknown error`). -/
def envelopeMeta (data : PyValue) : Except String (PyValue × PyValue) := do
  let ocs ← pyGet data "ocs" (.dict [])
  let meta ← pyGet ocs "meta" (.dict [])
  let st ← pyGet meta "status" .none
  let msg ← pyGet meta "message" (.str "Unknown error")
  pure (st, msg)

/-- Comparison `meta.get(...) == "ok"` as a Bool on the status value. -/
def apiStatusOk : PyValue → Bool
  | .str s => s == "ok"
  | _ => false

/-- Model of `fetch_metrics` (`ncmonitor_qt.py` lines 234-262) over an
abstract response.  Every exception raised inside the `try` block other than
the three `requests` exceptions is re-wrapped by the final handler as
`An unexpected error occurred: ...` — including the deliberately raised
`API Status Error`. -/
def fetch_metrics (resp : HttpResponse) : Except String PyValue :=
  match resp with
  | .httpError d => .error ("HTTP Error: " ++ d ++ ". Check URL/Token.")
  | .connError d => .error ("Connection Error: " ++ d ++ ". Server unreachable.")
  | .timeout => .error "Request timed out after 15 seconds."
  | .ok (.error d) => .error ("An unexpected error occurred: " ++ d)
  | .ok (.ok data) =>
    match envelopeMeta data with
    | .error d => .error ("An unexpected error occurred: " ++ d)
    | .ok stMsg =>
      if apiStatusOk stMsg.1 then .ok data
      else .error ("An unexpected error occurred: API Status Error: " ++ pyStr stMsg.2)

/-- The byte-valued RAM/swap numbers computed at lines 783-791, together with
the kilobyte-unit sources they are derived from. -/
structure RamSwapVals where
  ram_total_kb : Int
  ram_free_kb : Int
  swap_total_kb : Int
  swap_free_kb : Int
  ram_total : Int
  ram_used : Int
  swap_total : Int
  swap_used : Int
deriving DecidableEq

/-- RAM/swap extraction of `update_gui_metrics` (lines 783-791): kilobyte
fields coerced with the fallible `safe_int`, byte fields derived with the
fixed `KB_TO_BYTES` factor, used as `total - free` with no clamping. -/
def ramSwap (system_info : PyValue) : Except String RamSwapVals := do
  let ram_total_kb ← safe_int (← pyGet system_info "mem_total" (.int 0))
  let ram_free_kb ← safe_int (← pyGet system_info "mem_free" (.int 0))
  let swap_total_kb ← safe_int (← pyGet system_info "swap_total" (.int 0))
  let swap_free_kb ← safe_int (← pyGet system_info "swap_free" (.int 0))
  pure { ram_total_kb := ram_total_kb, ram_free_kb := ram_free_kb,
         swap_total_kb := swap_total_kb, swap_free_kb := swap_free_kb,
         ram_total := ram_total_kb * KB_TO_BYTES,
         ram_used := (ram_total_kb - ram_free_kb) * KB_TO_BYTES,
         swap_total := swap_total_kb * KB_TO_BYTES,
         swap_used := (swap_total_kb - swap_free_kb) * KB_TO_BYTES }

/-- CPU-load extraction of lines 793-794: the `cpuload` field (defaulting to
`[0, 0, 0]`) padded or truncated to exactly three entries via
`cpuload_data[i] if len(cpuload_data) > i else 0`. -/
def cpuLoadOf (system_info : PyValue) : Except String (PyValue × PyValue × PyValue) := do
  let cd ← pyGet system_info "cpuload" (.list [.int 0, .int 0, .int 0])
  let n ← pyLen cd
  let e0 ← if n > 0 then pyIndexNat cd 0 else pure (PyValue.int 0)
  let e1 ← if n > 1 then pyIndexNat cd 1 else pure (PyValue.int 0)
  let e2 ← if n > 2 then pyIndexNat cd 2 else pure (PyValue.int 0)
  pure (e0, e1, e2)

/-- Storage-overview fallback of lines 806-815: when both coerced fields are
zero the system-level `freespace` is substituted for `free` and both display
strings carry degradation annotations; otherwise both fields are rendered
with `format_bytes` directly.  Returns `(used display, free display)`. -/
def storageDisplays (storage_data system_info : PyValue) : Except String (String × String) := do
  let storage_free ← safe_int (← pyGet storage_data "free" .none)
  let storage_used ← safe_int (← pyGet storage_data "used" .none)
  if storage_used = 0 ∧ storage_free = 0 then do
    let sysFree ← safe_int (← pyGet system_info "freespace" .none)
    let freeDisp ← format_bytes (.int sysFree)
    pure ("0 Bytes (Data Missing)", freeDisp ++ " (System Freespace)")
  else do
    let usedDisp ← format_bytes (.int storage_used)
    let freeDisp ← format_bytes (.int storage_free)
    pure (usedDisp, freeDisp)

/-- Per-entry line rendering of the enabled-apps loop (lines 829-835): a
name+version record becomes `name: vVersion`, a bare name becomes
`name: vN/A`, anything else is skipped. -/
def appLines : List PyValue → List String
  | [] => []
  | .dict a :: rest =>
      (pyStr (lookupD a "id" (.str "Unknown App")) ++ ": v"
        ++ pyStr (lookupD a "version" (.str "N/A"))) :: appLines rest
  | .str s :: rest => (s ++ ": vN/A") :: appLines rest
  | _ :: rest => appLines rest

/-- The degraded app-section triple kept when the app payload is unusable
(lines 819-821): diagnostic string, enabled count, installed count. -/
def appDegraded : String × String × String :=
  ("APP DATA IS MISSING FROM NEXTCLOUD API RESPONSE.",
   "N/A (Data Missing)", "N/A (Data Missing)")

/-- App-summary computation of lines 817-841 on the `ocs.data` dict:
`data.get(...)` then the truthiness-plus-`isinstance` guard; well-formed
lists produce sorted newline-joined lines and stringified raw list lengths.
Python `sorted` is modelled by the stable `List.insertionSort`. -/
def appSummary (ocsData : PyValue) : Except String (String × String × String) := do
  let app_data ← pyGet ocsData "app" .none
  match app_data with
  | .dict akvs =>
    if akvs.isEmpty then pure appDegraded
    else
      match lookupD akvs "enabled" (.list []), lookupD akvs "installed" (.list []) with
      | .list es, .list is0 =>
        pure (joinStr "\n" (List.insertionSort (fun a b => a ≤ b) (appLines es)),
              toString es.length, toString is0.length)
      | _, _ => pure appDegraded
  | _ => pure appDegraded

/-- The normalized metrics snapshot produced by one successful
`update_gui_metrics` run: the label-keyed display strings of the `updates`
dict (lines 844-890), the enabled-apps text and the raw-diagnostic text. -/
structure Snapshot where
  updates : List (String × String)
  app_list_text : String
  raw_text : String

/-- The metric label keys created by the `create_*_tab` builders, which are
exactly the keys of the `updates` dict of lines 844-890. -/
def snapshotKeys : List String :=
  ["version_val", "php_uptime_val", "users_val", "files_val", "webserver_val",
   "cpunum_val", "active5m_val", "active1h_val", "active24h_val",
   "maintenance_val", "failed_logins_val", "total_shares_val",
   "local_shares_val", "federated_shares_val", "public_shares_val",
   "ram_used_val", "ram_total_val", "swap_used_val", "cpu1m_val", "cpu5m_val",
   "cpu15m_val", "opcache_hit_rate_val", "opcache_used_val",
   "opcache_wasted_val", "storage_used_val", "storage_free_val", "db_size_val",
   "enabled_apps_val", "app_count_val", "php_val", "php_memory_limit_val",
   "php_max_exec_val", "db_type_val", "db_version_val", "db_host_val"]

/-- Model of `update_gui_metrics` (`ncmonitor_qt.py` lines 764-913).  The
`try` body is the `Except` computation below; any raised exception is the
`error` case, which the caller surfaces as a data-processing failure.  Each
step mirrors one source line; the fallible renderings evaluated inside the
`updates` dict literal (lines 844-890) are hoisted into named binds ahead of
the literal — every rendering the source evaluates is still evaluated, so
the set of payloads on which the computation raises is unchanged, only which
of several simultaneous failures' messages surfaces can differ.  The display
strings collect into the `updates` association list in source order. -/
def update_gui_metrics (current_time_ts : Int) (data : PyValue) : Except String Snapshot := do
  let raw_text := pyDump data
  let ocs1 ← pyIndex data "ocs"
  let ocsData ← pyIndex ocs1 "data"
  let nc_data ← pyIndex ocsData "nextcloud"
  let server_data ← pyIndex ocsData "server"
  let active_users ← pyIndex ocsData "activeUsers"
  let system_info ← pyGet nc_data "system" (.dict [])
  let db_info ← pyGet server_data "database" (.dict [])
  let php_info ← pyGet server_data "php" (.dict [])
  let storage_data ← pyGet nc_data "storage" (.dict [])
  let shares ← pyGet nc_data "shares" (.dict [])
  let opc1 ← pyGet php_info "opcache" (.dict [])
  let opcache_stats ← pyGet opc1 "opcache_statistics" (.dict [])
  let opc2 ← pyGet php_info "opcache" (.dict [])
  let opcache_memory ← pyGet opc2 "memory_usage" (.dict [])
  let rs ← ramSwap system_info
  let ram_used_s ← format_bytes (.int rs.ram_used)
  let ram_total_s ← format_bytes (.int rs.ram_total)
  let swap_used_s ← format_bytes (.int rs.swap_used)
  let cpu ← cpuLoadOf system_info
  let opcache_hit_rate ← pyGet opcache_stats "opcache_hit_rate" (.int 0)
  let opcache_used_memory ← pyGet opcache_memory "used_memory" (.int 0)
  let wasted_memory ← pyGet opcache_memory "wasted_memory" (.int 0)
  let start_time_ts ← safe_int (← pyGet opcache_stats "start_time" (.int 0))
  let uptime_display ← format_timedelta (.int (uptime_seconds start_time_ts current_time_ts))
  let sd ← storageDisplays storage_data system_info
  let apps ← appSummary ocsData
  let version_v ← pyGet system_info "version" (.str "N/A")
  let users_v ← pyGet storage_data "num_users" (.int 0)
  let files_s ← fmtComma (← pyGet storage_data "num_files" (.int 0))
  let webserver_v ← pyGet server_data "webserver" (.str "N/A")
  let cpunum_v ← pyGet system_info "cpunum" (.str "N/A")
  let a5_v ← pyGet active_users "last5minutes" (.int 0)
  let a1h_v ← pyGet active_users "last1hour" (.int 0)
  let a24_v ← pyGet active_users "last24hours" (.int 0)
  let maint_v ← pyGet system_info "maintenance" (.bool false)
  let flog_v ← pyGet system_info "failing_login_attempts" (.int 0)
  let sh_total ← pyGet shares "num_shares" (.int 0)
  let sh_user ← pyGet shares "num_shares_user" (.int 0)
  let sh_fed ← pyGet shares "num_fed_shares_sent" (.int 0)
  let sh_link ← pyGet shares "num_shares_link" (.int 0)
  let cpu1_s ← fmt2f cpu.1
  let cpu5_s ← fmt2f cpu.2.1
  let cpu15_s ← fmt2f cpu.2.2
  let hit_s ← fmt2f opcache_hit_rate
  let opc_used_s ← format_bytes opcache_used_memory
  let opc_wasted_s ← format_bytes wasted_memory
  let db_size_v ← pyGet db_info "size" .none
  let db_size_i ← safe_int db_size_v
  let db_size_s ← format_bytes (.int db_size_i)
  let php_ver_v ← pyGet php_info "version" (.str "N/A")
  let php_mem_v ← pyGet php_info "memory_limit" (.int 0)
  let php_mem_s ← format_bytes php_mem_v
  let php_exec_v ← pyGet php_info "max_execution_time" (.str "N/A")
  let db_type_v ← pyGet db_info "type" (.str "N/A")
  let db_ver_v ← pyGet db_info "version" (.str "N/A")
  let db_host_v ← pyGet db_info "host" (.str "N/A")
  let updatesList : List (String × String) :=
    [ ("version_val", pyStr version_v),
      ("php_uptime_val", uptime_display),
      ("users_val", pyStr users_v),
      ("files_val", files_s),
      ("webserver_val", pyStr webserver_v),
      ("cpunum_val", pyStr cpunum_v),
      ("active5m_val", pyStr a5_v),
      ("active1h_val", pyStr a1h_v),
      ("active24h_val", pyStr a24_v),
      ("maintenance_val", if pyTruthy maint_v then "Yes" else "No"),
      ("failed_logins_val", pyStr flog_v),
      ("total_shares_val", pyStr sh_total),
      ("local_shares_val", pyStr sh_user),
      ("federated_shares_val", pyStr sh_fed),
      ("public_shares_val", pyStr sh_link),
      ("ram_used_val", ram_used_s),
      ("ram_total_val", ram_total_s),
      ("swap_used_val", swap_used_s),
      ("cpu1m_val", cpu1_s),
      ("cpu5m_val", cpu5_s),
      ("cpu15m_val", cpu15_s),
      ("opcache_hit_rate_val", hit_s ++ "%"),
      ("opcache_used_val", opc_used_s),
      ("opcache_wasted_val", opc_wasted_s),
      ("storage_used_val", sd.1),
      ("storage_free_val", sd.2),
      ("db_size_val", db_size_s),
      ("enabled_apps_val", apps.2.1),
      ("app_count_val", apps.2.2),
      ("php_val", pyStr php_ver_v),
      ("php_memory_limit_val", php_mem_s),
      ("php_max_exec_val", pyStr php_exec_v ++ "s"),
      ("db_type_val", pyStr db_type_v),
      ("db_version_val", pyStr db_ver_v),
      ("db_host_val", pyStr db_host_v) ]
  pure { updates := updatesList, app_list_text := apps.1, raw_text := raw_text }

/-- A named server configuration as loaded by `find_and_load_configs`. -/
structure Config where
  cname : String
  url : String
  token : String
deriving DecidableEq

/-- One dispatched `NextcloudWorker` (lines 268-282): it captures the URL and
token it was constructed with; its signals are wired to the application's
completion handlers with no configuration-identity check. -/
structure Worker where
  nc_url : String
  nc_token : String
deriving DecidableEq

/-- The mutable application state touched by the polling logic of
`NextcloudMonitorApp`: the active configuration and its credentials, the
label-keyed display strings, the two text panes, the status line, whether the
refresh timer runs, and the list of dispatched but not yet completed
workers. -/
structure AppState where
  current_config : Config
  nc_url : String
  nc_token : String
  metric_labels : List (String × String)
  app_list_text : String
  raw_data_text : String
  status_message : String
  timer_running : Bool
  pending : List Worker

/-- Model of `start_fetch` (lines 737-751): updates the status line, creates
a worker capturing the current URL/token and hands it to the thread pool.
There is no in-flight guard of any kind. -/
def start_fetch (st : AppState) : AppState :=
  { st with status_message := "Fetching new data...",
            pending := st.pending ++ [{ nc_url := st.nc_url, nc_token := st.nc_token }] }

/-- Resets every metric label to the `N/A` placeholder (lines 697-699). -/
def resetLabels (ls : List (String × String)) : List (String × String) :=
  ls.map (fun p => (p.1, "N/A"))

/-- Model of `apply_new_config` (lines 689-711): replaces the active
configuration and credentials, resets every label and both text panes to
their loading placeholders, restarts the timer, then immediately calls
`start_fetch`. -/
def apply_new_config (st : AppState) (c : Config) : AppState :=
  start_fetch
    { st with current_config := c, nc_url := c.url, nc_token := c.token,
              metric_labels := resetLabels st.metric_labels,
              app_list_text := "Apps list loading...",
              raw_data_text := "Fetching raw data...",
              status_message := "Monitoring server: " ++ c.url ++ "...",
              timer_running := true }

/-- The label-update loop of lines 892-894: every label whose key occurs in
the `updates` mapping receives the new display string; labels without an
update keep their old text. -/
def applyUpdates (labels updates : List (String × String)) : List (String × String) :=
  labels.map (fun p =>
    match List.lookup p.1 updates with
    | some v => (p.1, v)
    | Option.none => p)

/-- Model of the `data_fetched` signal handler `update_gui_metrics` as a
state transition: the raw pane is set first; on success every label listed in
the updates mapping and the app-list pane are rewritten, on failure the
status reports a data-processing error and the labels are left as they were
(lines 764-913).  The handler runs for whichever worker completed — nothing
inspects which configuration the payload belongs to. -/
def on_data_fetched (st : AppState) (current_time_ts : Int) (data : PyValue) : AppState :=
  match update_gui_metrics current_time_ts data with
  | .ok snap =>
    { st with raw_data_text := snap.raw_text,
              metric_labels := applyUpdates st.metric_labels snap.updates,
              app_list_text := snap.app_list_text,
              status_message := "Last updated" }
  | .error _ =>
    { st with raw_data_text := pyDump data,
              status_message := "Error processing data" }

/-- Model of the `error` signal handler `handle_fetch_error`
(lines 753-756). -/
def handle_fetch_error (st : AppState) (msg : String) : AppState :=
  { st with raw_data_text := "ERROR: Could not fetch data. Check your URL/Token.\n\n" ++ msg,
            status_message := "Error: " ++ msg }

/-- Completion of the pending worker at position `i` with a successful fetch:
the worker leaves the pool and its `data_fetched` signal runs the GUI update
with its payload — unconditionally, regardless of the worker's tag. -/
def complete_success (st : AppState) (i : Nat) (current_time_ts : Int) (data : PyValue) : AppState :=
  { on_data_fetched st current_time_ts data with pending := st.pending.eraseIdx i }

/-- Completion of the pending worker at position `i` with a fetch error. -/
def complete_error (st : AppState) (i : Nat) (msg : String) : AppState :=
  { handle_fetch_error st msg with pending := st.pending.eraseIdx i }

/-- Labels as created by the tab builders: every metric key shows `N/A`. -/
def initialLabels : List (String × String) :=
  snapshotKeys.map (fun k => (k, "N/A"))

/-- Application state at the top of `__init__` (lines 417-441), before the
initial `apply_new_config` call. -/
def blankState (c : Config) : AppState :=
  { current_config := c, nc_url := c.url, nc_token := c.token,
    metric_labels := initialLabels, app_list_text := "",
    raw_data_text := "", status_message := "Initializing monitor...",
    timer_running := false, pending := [] }

/-- Application state after `__init__` finished: `apply_new_config` has run
for the initial configuration, so one fetch for it is already outstanding. -/
def initState (c : Config) : AppState :=
  apply_new_config (blankState c) c

/-- Whether a value is a list (Python `isinstance(v, list)`). -/
def isListV : PyValue → Bool
  | .list _ => true
  | _ => false

/-- Whether a value is a dict. -/
def isDictV : PyValue → Bool
  | .dict _ => true
  | _ => false

/-- Whether a value is accepted by the numeric `format` specifiers (`:,` and
`:.2f`): Python ints and bools. -/
def wfNum : PyValue → Bool
  | .int _ => true
  | .bool _ => true
  | _ => false

/-- An optional field is well-formed for numeric formatting when absent or
numeric. -/
def wfNumOpt (kvs : List (String × PyValue)) (k : String) : Bool :=
  match List.lookup k kvs with
  | some v => wfNum v
  | Option.none => true

/-- An optional sub-group is well-formed when absent or a dict. -/
def wfDictOpt (kvs : List (String × PyValue)) (k : String) : Bool :=
  match List.lookup k kvs with
  | some v => isDictV v
  | Option.none => true

/-- The entries of an optional dict-valued sub-group (empty when absent). -/
def subDict (kvs : List (String × PyValue)) (k : String) : List (String × PyValue) :=
  match List.lookup k kvs with
  | some (.dict l) => l
  | _ => []

/-- A value accepted by the `:.2f` float format without overflow: an int
below the double overflow threshold, or a bool. -/
def wfNumF : PyValue → Bool
  | .int n => decide (n.natAbs < ovThreshold)
  | .bool _ => true
  | _ => false

/-- An optional field is well-formed for float formatting when absent or
accepted by `wfNumF`. -/
def wfNumFOpt (kvs : List (String × PyValue)) (k : String) : Bool :=
  match List.lookup k kvs with
  | some v => wfNumF v
  | Option.none => true

/-- Coercion well-formedness of one raw field: `safe_int` succeeds on it and
the coerced value is small enough (below `2^1000`) that every float
conversion of a value derived from it downstream (`* 1024`, differences)
stays finite. -/
def coerceBounded (v : PyValue) : Bool :=
  match safe_int v with
  | .ok y => decide (y.natAbs < 2 ^ 1000)
  | .error _ => false

/-- An optional field is coercion-well-formed when `coerceBounded` holds of
its value, or of the call-site default when it is absent. -/
def wfCoerceOpt (kvs : List (String × PyValue)) (k : String) (d : PyValue) : Bool :=
  coerceBounded (lookupD kvs k d)

/-- The `cpuload` field is well-formed when absent or a list whose first
three entries are in-range numerics. -/
def wfCpu (sys : List (String × PyValue)) : Bool :=
  match List.lookup "cpuload" sys with
  | Option.none => true
  | some (.list xs) => (xs.take 3).all wfNumF
  | some _ => false

/-- Well-formedness of the `nextcloud.system` group: a dict when present,
`cpuload` a numeric list, and every field flowing through `safe_int`
coercible and bounded. -/
def wfSystemGroup (nc : List (String × PyValue)) : Bool :=
  wfDictOpt nc "system" && wfCpu (subDict nc "system") &&
  wfCoerceOpt (subDict nc "system") "mem_total" (.int 0) &&
  wfCoerceOpt (subDict nc "system") "mem_free" (.int 0) &&
  wfCoerceOpt (subDict nc "system") "swap_total" (.int 0) &&
  wfCoerceOpt (subDict nc "system") "swap_free" (.int 0) &&
  wfCoerceOpt (subDict nc "system") "freespace" PyValue.none

/-- Well-formedness of the `nextcloud.storage` group. -/
def wfStorageGroup (nc : List (String × PyValue)) : Bool :=
  wfDictOpt nc "storage" && wfNumOpt (subDict nc "storage") "num_files" &&
  wfCoerceOpt (subDict nc "storage") "used" PyValue.none &&
  wfCoerceOpt (subDict nc "storage") "free" PyValue.none

/-- Well-formedness of the `server` group: database/php/opcache sub-dicts
typed, the hit rate in float-format range, and the byte-count fields
coercible and bounded. -/
def wfServerGroup (sv : List (String × PyValue)) : Bool :=
  wfDictOpt sv "database" &&
  wfCoerceOpt (subDict sv "database") "size" PyValue.none &&
  wfDictOpt sv "php" &&
  wfCoerceOpt (subDict sv "php") "memory_limit" (.int 0) &&
  wfDictOpt (subDict sv "php") "opcache" &&
  wfDictOpt (subDict (subDict sv "php") "opcache") "opcache_statistics" &&
  wfDictOpt (subDict (subDict sv "php") "opcache") "memory_usage" &&
  wfNumFOpt (subDict (subDict (subDict sv "php") "opcache") "opcache_statistics")
    "opcache_hit_rate" &&
  wfCoerceOpt (subDict (subDict (subDict sv "php") "opcache") "opcache_statistics")
    "start_time" (.int 0) &&
  wfCoerceOpt (subDict (subDict (subDict sv "php") "opcache") "memory_usage")
    "used_memory" (.int 0) &&
  wfCoerceOpt (subDict (subDict (subDict sv "php") "opcache") "memory_usage")
    "wasted_memory" (.int 0)

/-- Structural and numeric well-formedness of a payload under which
`update_gui_metrics` cannot raise: the required
`ocs.data.nextcloud` / `server` / `activeUsers` spine is present with
dict-valued groups, the optional sub-groups are dicts when present,
`cpuload` is an in-range numeric list when present, `num_files` is numeric
and `opcache_hit_rate` in float-format range when present, and every field
that flows through the `safe_int` / `float()` coercion (the kilobyte and
byte counts and the opcache start time) coerces without the uncaught
`OverflowError` to a bounded value.  Everything else may be absent or
arbitrary. -/
def wfPayload (data : PyValue) : Bool :=
  match data with
  | .dict top =>
    match List.lookup "ocs" top with
    | some (.dict ocs) =>
      match List.lookup "data" ocs with
      | some (.dict od) =>
        match List.lookup "nextcloud" od, List.lookup "server" od,
              List.lookup "activeUsers" od with
        | some (.dict nc), some (.dict sv), some (.dict _) =>
          wfSystemGroup nc && wfStorageGroup nc && wfDictOpt nc "shares" &&
          wfServerGroup sv
        | _, _, _ => false
      | _ => false
    | _ => false
  | _ => false

/-- Test configuration A. -/
def cfgA : Config := { cname := "[ncmonitor] a.example", url := "http://a.example", token := "tokA" }

/-- Test configuration B. -/
def cfgB : Config := { cname := "[ncmonitor_1] b.example", url := "http://b.example", token := "tokB" }

/-- A fully well-formed concrete payload carrying server A's data; the
version string makes A's data recognisable on the display. -/
def payloadA : PyValue :=
  .dict [("ocs", .dict [
    ("meta", .dict [("status", .str "ok")]),
    ("data", .dict [
      ("nextcloud", .dict [
        ("system", .dict [
          ("version", .str "27.1.1-A"), ("mem_total", .int 8000),
          ("mem_free", .int 3000), ("swap_total", .int 2000),
          ("swap_free", .int 1500),
          ("cpuload", .list [.int 1, .int 2, .int 3]),
          ("cpunum", .int 4), ("freespace", .int 5000),
          ("maintenance", .bool false), ("failing_login_attempts", .int 7)]),
        ("storage", .dict [
          ("free", .int 111), ("used", .int 222), ("num_users", .int 5),
          ("num_files", .int 1234)]),
        ("shares", .dict [("num_shares", .int 9)])]),
      ("server", .dict [
        ("webserver", .str "nginx"),
        ("database", .dict [("type", .str "mysql"), ("size", .int 4096)]),
        ("php", .dict [("version", .str "8.2")])]),
      ("activeUsers", .dict [("last5minutes", .int 1)])])])]

/-- A payload whose system section reports more free than total memory. -/
def payloadNegRam : PyValue :=
  .dict [("ocs", .dict [
    ("data", .dict [
      ("nextcloud", .dict [
        ("system", .dict [("mem_total", .int 100), ("mem_free", .int 200)])]),
      ("server", .dict []),
      ("activeUsers", .dict [])])])]

/-- A payload carrying the required spine whose system section reports
`mem_total` as the string `"inf"` — `float("inf")` succeeds but `int()` on
it raises the `OverflowError` that `safe_int` does not catch. -/
def payloadInfRam : PyValue :=
  .dict [("ocs", .dict [
    ("data", .dict [
      ("nextcloud", .dict [
        ("system", .dict [("mem_total", .str "inf")])]),
      ("server", .dict []),
      ("activeUsers", .dict [])])])]

/-- The minimal payload containing only the required spine. -/
def payloadMinimal : PyValue :=
  .dict [("ocs", .dict [
    ("data", .dict [
      ("nextcloud", .dict []), ("server", .dict []), ("activeUsers", .dict [])])])]

/-- A parsed 2xx response body whose envelope status is not `ok` and which
carries a server-supplied message. -/
def badStatusBody : PyValue :=
  .dict [("ocs", .dict [
    ("meta", .dict [("status", .str "failure"), ("message", .str "boom")])])]

/-- Example enabled-apps list: one bare name and one name+version record. -/
def appEnabledEx : List PyValue :=
  [.str "zoo", .dict [("id", .str "alpha"), ("version", .str "1.2")]]

/-- Example installed-apps list. -/
def appInstalledEx : List PyValue := [.str "a", .str "b", .str "c"]

/-- Example app mapping entries. -/
def appAkvsEx : List (String × PyValue) :=
  [("enabled", .list appEnabledEx), ("installed", .list appInstalledEx)]

/-- Example `ocs.data` entries containing a well-formed app mapping. -/
def appOkvsEx : List (String × PyValue) := [("app", .dict appAkvsEx)]

theorem ovThreshold_ge : (2 : Nat) ^ 1023 ≤ ovThreshold := by
  unfold ovThreshold
  have h1 : (2 : Nat) ^ 970 ≤ 2 ^ 1023 := Nat.pow_le_pow_right (by norm_num) (by norm_num)
  have h2 : (2 : Nat) ^ 1024 = 2 ^ 1023 + 2 ^ 1023 := by
    rw [pow_succ, mul_two]
  omega

theorem two_pow_53_lt_ovThreshold : (2 : Nat) ^ 53 < ovThreshold :=
  lt_of_lt_of_le (Nat.pow_lt_pow_right (by norm_num) (by norm_num)) ovThreshold_ge

theorem two_pow_1000_lt_ovThreshold : (2 : Nat) ^ 1000 < ovThreshold :=
  lt_of_lt_of_le (Nat.pow_lt_pow_right (by norm_num) (by norm_num)) ovThreshold_ge

theorem two_pow_1011_lt_ovThreshold : (2 : Nat) ^ 1011 < ovThreshold :=
  lt_of_lt_of_le (Nat.pow_lt_pow_right (by norm_num) (by norm_num)) ovThreshold_ge

theorem coerceB_spec {v : PyValue} (h : coerceBounded v = true) :
    ∃ y, safe_int v = .ok y ∧ y.natAbs < 2 ^ 1000 := by
  unfold coerceBounded at h
  cases hs : safe_int v with
  | ok y => rw [hs] at h; exact ⟨y, rfl, by simpa using h⟩
  | error e => rw [hs] at h; simp at h

theorem wfCoerce_spec {kvs : List (String × PyValue)} {k : String} {d : PyValue}
    (h : wfCoerceOpt kvs k d = true) :
    ∃ y, safe_int (lookupD kvs k d) = .ok y ∧ y.natAbs < 2 ^ 1000 := by
  unfold wfCoerceOpt at h
  exact coerceB_spec h

theorem safe_int_int_small {n : Int} (h : n.natAbs < 2 ^ 53) :
    safe_int (.int n) = .ok n := by
  unfold safe_int
  dsimp only
  rw [if_pos h]

theorem safe_int_int_ok {n : Int} (h : n.natAbs < ovThreshold) :
    ∃ y, safe_int (.int n) = .ok y := by
  unfold safe_int
  dsimp only
  by_cases h53 : n.natAbs < 2 ^ 53
  · exact ⟨n, by rw [if_pos h53]⟩
  · rw [if_neg h53, if_neg (show ¬ ovThreshold ≤ n.natAbs by omega)]
    exact ⟨_, rfl⟩

theorem format_bytes_ok_int {n : Int} (h : n.natAbs < ovThreshold) :
    ∃ s, format_bytes (.int n) = .ok s := by
  obtain ⟨y, hy⟩ := safe_int_int_ok h
  exact ⟨format_bytes_int y,
    by simp [format_bytes, hy, bind, Except.bind, pure, Except.pure]⟩

theorem format_bytes_ok_of_wfCoerce {kvs : List (String × PyValue)} {k : String}
    {d : PyValue} (h : wfCoerceOpt kvs k d = true) :
    ∃ s, format_bytes (lookupD kvs k d) = .ok s := by
  obtain ⟨y, hy, _⟩ := wfCoerce_spec h
  exact ⟨format_bytes_int y,
    by simp [format_bytes, hy, bind, Except.bind, pure, Except.pure]⟩

theorem format_timedelta_ok_int {u : Int} (h : u.natAbs < 2 ^ 53) :
    format_timedelta (.int u) = .ok (format_timedelta_int u) := by
  simp [format_timedelta, safe_int_int_small h, bind, Except.bind, pure, Except.pure]

/-- C2 (amended): `start_fetch` has no in-flight guard — every invocation
dispatches a worker tagged with the current URL/token, so two invocations in
immediate succession dispatch exactly two fetches. -/
theorem start_fetch_always_dispatches (st : AppState) :
    (start_fetch st).pending
      = st.pending ++ [{ nc_url := st.nc_url, nc_token := st.nc_token }] ∧
    (start_fetch (start_fetch st)).pending.length = st.pending.length + 2 := by
  constructor
  · rfl
  · simp [start_fetch]

/-- C2 counterexample: from an idle state with no outstanding worker, two
immediate `start_fetch` calls leave two dispatched fetches, not one. -/
theorem start_fetch_twice_two_workers :
    (start_fetch (start_fetch (blankState cfgA))).pending.length = 2 ∧ (2 : Nat) ≠ 1 :=
  ⟨rfl, by decide⟩

/-- C4 (amended): whatever system section `ramSwap` succeeds on, the byte
fields are derived from the kilobyte sources by the fixed `KB_TO_BYTES`
factor as `total` and `total - free`; the used values are non-negative
exactly under the proviso `free ≤ total` (and totals under `0 ≤ total`) —
nothing clamps a negative difference. -/
theorem ramSwap_derivation (si : PyValue) (rs : RamSwapVals)
    (h : ramSwap si = .ok rs) :
    rs.ram_total = rs.ram_total_kb * KB_TO_BYTES ∧
    rs.ram_used = (rs.ram_total_kb - rs.ram_free_kb) * KB_TO_BYTES ∧
    rs.swap_total = rs.swap_total_kb * KB_TO_BYTES ∧
    rs.swap_used = (rs.swap_total_kb - rs.swap_free_kb) * KB_TO_BYTES ∧
    (rs.ram_free_kb ≤ rs.ram_total_kb → 0 ≤ rs.ram_used) ∧
    (0 ≤ rs.ram_total_kb → 0 ≤ rs.ram_total) ∧
    (rs.swap_free_kb ≤ rs.swap_total_kb → 0 ≤ rs.swap_used) ∧
    (0 ≤ rs.swap_total_kb → 0 ≤ rs.swap_total) := by
  cases si with
  | dict kvs =>
    simp only [ramSwap, pyGet, bind, Except.bind, pure, Except.pure] at h
    cases hA : safe_int (lookupD kvs "mem_total" (.int 0)) with
    | error e => rw [hA] at h; simp at h
    | ok a =>
      rw [hA] at h; dsimp only at h
      cases hB : safe_int (lookupD kvs "mem_free" (.int 0)) with
      | error e => rw [hB] at h; simp at h
      | ok b =>
        rw [hB] at h; dsimp only at h
        cases hC : safe_int (lookupD kvs "swap_total" (.int 0)) with
        | error e => rw [hC] at h; simp at h
        | ok c =>
          rw [hC] at h; dsimp only at h
          cases hD : safe_int (lookupD kvs "swap_free" (.int 0)) with
          | error e => rw [hD] at h; simp at h
          | ok d =>
            rw [hD] at h; dsimp only at h
            rw [Except.ok.injEq] at h
            subst h
            refine ⟨rfl, rfl, rfl, rfl, ?_, ?_, ?_, ?_⟩ <;>
              · intro h2; dsimp only at h2 ⊢; simp only [KB_TO_BYTES] at h2 ⊢; omega
  | none => simp [ramSwap, pyGet, bind, Except.bind] at h
  | bool b => simp [ramSwap, pyGet, bind, Except.bind] at h
  | int n => simp [ramSwap, pyGet, bind, Except.bind] at h
  | str s => simp [ramSwap, pyGet, bind, Except.bind] at h
  | list xs => simp [ramSwap, pyGet, bind, Except.bind] at h

/-- Witness for the amended C4 on the concrete system section of
`payloadA`. -/
theorem ramSwap_derivation_witness :
    ∃ rs, ramSwap (.dict [("mem_total", .int 8000), ("mem_free", .int 3000)]) = .ok rs ∧
      rs.ram_used = (rs.ram_total_kb - rs.ram_free_kb) * KB_TO_BYTES ∧ 0 ≤ rs.ram_used := by
  have h : ramSwap (.dict [("mem_total", .int 8000), ("mem_free", .int 3000)]) =
      .ok { ram_total_kb := 8000, ram_free_kb := 3000, swap_total_kb := 0, swap_free_kb := 0,
            ram_total := 8192000, ram_used := 5120000, swap_total := 0, swap_used := 0 } := by rfl
  exact ⟨_, h, (ramSwap_derivation _ _ h).2.1,
    (ramSwap_derivation _ _ h).2.2.2.2.1 (by decide)⟩

/-- C4 counterexample: a payload reporting `mem_free > mem_total` produces a
negative `ram_used` byte value, rendered with a minus sign — the snapshot's
numeric RAM field is not non-negative. -/
theorem ram_used_negative_on_free_gt_total :
    wfPayload payloadNegRam = true ∧
    (update_gui_metrics 0 payloadNegRam).toOption.map
        (fun s => List.lookup "ram_used_val" s.updates)
      = some (some "-102400.00 Bytes") ∧
    (ramSwap (.dict [("mem_total", .int 100), ("mem_free", .int 200)])).toOption.map
        (fun r => r.ram_used) = some (-102400) ∧
    (-102400 : Int) < 0 :=
  ⟨rfl, rfl, rfl, by norm_num⟩

/-- C9 (amended): a 2xx parsed response whose envelope status is not `ok`
makes `fetch_metrics` fail, but the deliberately raised `API Status Error`
is re-caught by the blanket handler, so the surfaced message is the
server-supplied message (or the `Unknown error` default) wrapped in
`An unexpected error occurred: API Status Error: `. -/
theorem fetch_metrics_api_error (data stv msgv : PyValue)
    (h : envelopeMeta data = .ok (stv, msgv)) (hst : apiStatusOk stv = false) :
    fetch_metrics (.ok (.ok data)) =
      .error ("An unexpected error occurred: API Status Error: " ++ pyStr msgv) := by
  simp [fetch_metrics, h, hst]

/-- Witness for the amended C9 on the concrete bad-status body. -/
theorem fetch_metrics_api_error_witness :
    fetch_metrics (.ok (.ok badStatusBody)) =
      .error ("An unexpected error occurred: API Status Error: " ++ pyStr (.str "boom")) :=
  fetch_metrics_api_error badStatusBody (.str "failure") (.str "boom") rfl rfl

/-- C9 counterexample: for the bad-status body with server message `boom`,
the failure message is not exactly the server-supplied message. -/
theorem fetch_metrics_message_not_verbatim :
    fetch_metrics (.ok (.ok badStatusBody)) =
      .error "An unexpected error occurred: API Status Error: boom" ∧
    "An unexpected error occurred: API Status Error: boom" ≠ "boom" :=
  ⟨rfl, by decide⟩

/-- C8 counterexample: an app-list field that is present as an empty mapping
is well-formed per the claim (a mapping whose absent sub-fields default to
empty sequences, raw lengths 0), yet the code's truthiness guard sends it to
the degraded sentinel branch instead of reporting zero counts. -/
theorem appSummary_empty_dict_degraded :
    (appSummary (.dict [("app", .dict [])])).toOption = some appDegraded ∧
    appDegraded.2.1 ≠ "0" ∧ appDegraded.2.2 ≠ "0" :=
  ⟨rfl, by decide, by decide⟩

theorem append_ne_empty_left (a b : String) (h : a ≠ "") : a ++ b ≠ "" := by
  intro hab
  apply h
  have h2 := congrArg String.length hab
  rw [String.length_append, String.length_empty] at h2
  have h3 : a.length = 0 := by omega
  cases a with
  | mk d =>
    cases d with
    | nil => rfl
    | cons c t => simp [String.length_mk] at h3

theorem append_space_append_ne_empty (a b : String) : a ++ " " ++ b ≠ "" := by
  intro hab
  have h2 := congrArg String.length hab
  rw [String.length_append, String.length_append, String.length_empty] at h2
  have h1 : (" " : String).length = 1 := rfl
  omega

theorem fmtUnit_ne_empty (v : Int) (nm : String) : fmtUnit v nm ≠ "" := by
  unfold fmtUnit
  split
  · exact append_space_append_ne_empty _ _
  · exact append_space_append_ne_empty _ _

theorem joinStr_ne_empty (sep : String) (l : List String) (h : l ≠ [])
    (ha : ∀ s ∈ l, s ≠ "") : joinStr sep l ≠ "" := by
  match l with
  | [] => exact absurd rfl h
  | [a] => exact ha a (by simp)
  | a :: b :: t =>
    show a ++ sep ++ joinStr sep (b :: t) ≠ ""
    exact append_ne_empty_left _ _ (append_ne_empty_left _ _ (ha a (by simp)))

theorem uptimeComponents_eq_append (x : Int) :
    uptimeComponents x =
      (if x / 31536000 ≠ 0 then [fmtUnit (x / 31536000) "years"] else []) ++
      (if x % 31536000 / 86400 ≠ 0 then [fmtUnit (x % 31536000 / 86400) "days"] else []) ++
      (if x % 86400 / 3600 ≠ 0 then [fmtUnit (x % 86400 / 3600) "hours"] else []) ++
      (if x % 3600 / 60 ≠ 0 then [fmtUnit (x % 3600 / 60) "minutes"] else []) := by
  simp only [uptimeComponents, uptimeUnitVals]
  by_cases c1 : x / 31536000 = 0 <;> by_cases c2 : x % 31536000 / 86400 = 0 <;>
    by_cases c3 : x % 86400 / 3600 = 0 <;> by_cases c4 : x % 3600 / 60 = 0 <;>
    simp [c1, c2, c3, c4]

theorem tdLoop_min (s : Int) (hs : 0 ≤ s) :
    tdLoop [("minutes", 60)] s =
      ((if s / 60 ≠ 0 then [fmtUnit (s / 60) "minutes"] else []), s % 60) := by
  by_cases h : s / 60 = 0 <;> simp [tdLoop, h] <;> omega

theorem tdLoop_hr (s : Int) (hs : 0 ≤ s) :
    tdLoop [("hours", 3600), ("minutes", 60)] s =
      ((if s / 3600 ≠ 0 then [fmtUnit (s / 3600) "hours"] else []) ++
        (if s % 3600 / 60 ≠ 0 then [fmtUnit (s % 3600 / 60) "minutes"] else []),
       s % 60) := by
  by_cases h : s / 3600 = 0
  · have hrw : tdLoop [("hours", 3600), ("minutes", 60)] s = tdLoop [("minutes", 60)] s := by
      simp [tdLoop, h]
    rw [hrw, tdLoop_min s hs]
    have q : s % 3600 = s := by omega
    simp [h, q]
  · have e : s - s / 3600 * 3600 = s % 3600 := by omega
    have hrw : tdLoop [("hours", 3600), ("minutes", 60)] s =
        (fmtUnit (s / 3600) "hours" :: (tdLoop [("minutes", 60)] (s % 3600)).1,
         (tdLoop [("minutes", 60)] (s % 3600)).2) := by
      simp [tdLoop, h, e]
    rw [hrw, tdLoop_min (s % 3600) (by omega)]
    have q : s % 3600 % 60 = s % 60 := by omega
    simp [h, q]

theorem tdLoop_day (s : Int) (hs : 0 ≤ s) :
    tdLoop [("days", 86400), ("hours", 3600), ("minutes", 60)] s =
      ((if s / 86400 ≠ 0 then [fmtUnit (s / 86400) "days"] else []) ++
        ((if s % 86400 / 3600 ≠ 0 then [fmtUnit (s % 86400 / 3600) "hours"] else []) ++
          (if s % 3600 / 60 ≠ 0 then [fmtUnit (s % 3600 / 60) "minutes"] else [])),
       s % 60) := by
  by_cases h : s / 86400 = 0
  · have hrw : tdLoop [("days", 86400), ("hours", 3600), ("minutes", 60)] s =
        tdLoop [("hours", 3600), ("minutes", 60)] s := by
      simp [tdLoop, h]
    rw [hrw, tdLoop_hr s hs]
    have q : s % 86400 = s := by omega
    simp [h, q]
  · have e : s - s / 86400 * 86400 = s % 86400 := by omega
    have hrw : tdLoop [("days", 86400), ("hours", 3600), ("minutes", 60)] s =
        (fmtUnit (s / 86400) "days" :: (tdLoop [("hours", 3600), ("minutes", 60)] (s % 86400)).1,
         (tdLoop [("hours", 3600), ("minutes", 60)] (s % 86400)).2) := by
      simp [tdLoop, h, e]
    rw [hrw, tdLoop_hr (s % 86400) (by omega)]
    have q3 : s % 86400 % 3600 = s % 3600 := by omega
    have q6 : s % 86400 % 60 = s % 60 := by omega
    simp [h, q3, q6]

theorem tdLoop_intervals (x : Int) (hx : 0 ≤ x) :
    tdLoop intervals x = (uptimeComponents x, x % 60) := by
  rw [uptimeComponents_eq_append]
  by_cases h : x / 31536000 = 0
  · have hrw : tdLoop intervals x =
        tdLoop [("days", 86400), ("hours", 3600), ("minutes", 60)] x := by
      simp [intervals, tdLoop, h]
    rw [hrw, tdLoop_day x hx]
    have q : x % 31536000 = x := by omega
    simp [h, q]
  · have e : x - x / 31536000 * 31536000 = x % 31536000 := by omega
    have hrw : tdLoop intervals x =
        (fmtUnit (x / 31536000) "years"
            :: (tdLoop [("days", 86400), ("hours", 3600), ("minutes", 60)] (x % 31536000)).1,
         (tdLoop [("days", 86400), ("hours", 3600), ("minutes", 60)] (x % 31536000)).2) := by
      simp [intervals, tdLoop, h, e]
    rw [hrw, tdLoop_day (x % 31536000) (by omega)]
    have q8 : x % 31536000 % 86400 = x % 86400 := by omega
    have q3 : x % 31536000 % 3600 = x % 3600 := by omega
    have q6 : x % 31536000 % 60 = x % 60 := by omega
    simp [h, q8, q3, q6]

theorem ft_eq (x : Int) : format_timedelta_int x = uptimeRendered x := by
  by_cases hx : x ≤ 0
  · simp [format_timedelta_int, uptimeRendered, hx]
  · push_neg at hx
    have hxn : ¬ x ≤ 0 := by omega
    have hnn : (0 : Int) ≤ x := by omega
    by_cases hlt : x < 60
    · have hc0 : uptimeComponents x = [] := by
        rw [uptimeComponents_eq_append]
        have c1 : x / 31536000 = 0 := by omega
        have c2 : x % 31536000 / 86400 = 0 := by omega
        have c3 : x % 86400 / 3600 = 0 := by omega
        have c4 : x % 3600 / 60 = 0 := by omega
        simp [c1, c2, c3, c4]
      have hq : x % 60 = x := by omega
      simp [format_timedelta_int, uptimeRendered, hxn, hlt, tdLoop_intervals x hnn, hc0, hq, hx]
    · have hcne : uptimeComponents x ≠ [] := by
        rw [uptimeComponents_eq_append]
        intro heq
        rw [List.append_eq_nil] at heq
        obtain ⟨h123, h4⟩ := heq
        rw [List.append_eq_nil] at h123
        obtain ⟨h12, h3⟩ := h123
        rw [List.append_eq_nil] at h12
        obtain ⟨h1, h2⟩ := h12
        have c1 : x / 31536000 = 0 := by by_contra hc; simp [hc] at h1
        have c2 : x % 31536000 / 86400 = 0 := by by_contra hc; simp [hc] at h2
        have c3 : x % 86400 / 3600 = 0 := by by_contra hc; simp [hc] at h3
        have c4 : x % 3600 / 60 = 0 := by by_contra hc; simp [hc] at h4
        omega
      have hall : ∀ s ∈ uptimeComponents x, s ≠ "" := by
        intro s hsm
        unfold uptimeComponents at hsm
        simp only [List.mem_map] at hsm
        obtain ⟨p, hp, rfl⟩ := hsm
        exact fmtUnit_ne_empty p.1 p.2
      have hj : joinStr ", " ((uptimeComponents x).take 3) ≠ "" := by
        apply joinStr_ne_empty
        · cases hcc : uptimeComponents x with
          | nil => exact absurd hcc hcne
          | cons a t => simp [hcc]
        · intro s hsm
          exact hall s (List.mem_of_mem_take hsm)
      simp [format_timedelta_int, uptimeRendered, hxn, hlt, tdLoop_intervals x hnn, hcne, hj]

theorem mem_of_getLast?_eq_some {α : Type} {l : List α} {a : α}
    (h : l.getLast? = some a) : a ∈ l := by
  induction l with
  | nil => simp at h
  | cons b t ih =>
    cases t with
    | nil => simp_all
    | cons c t2 =>
      rw [List.getLast?_cons_cons] at h
      exact List.mem_cons_of_mem _ (ih h)

theorem joinStr_getLast_char (sep : String) :
    ∀ (l : List String) (a : String), (∀ s ∈ l, s ≠ "") → l.getLast? = some a →
      (joinStr sep l).data.getLast? = a.data.getLast? := by
  intro l
  induction l with
  | nil => intro a _ h; simp at h
  | cons b t ih =>
    intro a ha hl
    cases t with
    | nil =>
      simp only [List.getLast?_singleton, Option.some.injEq] at hl
      subst hl
      rfl
    | cons c t2 =>
      have hlast : (c :: t2).getLast? = some a := by
        rw [← hl, List.getLast?_cons_cons]
      have hJ : joinStr sep (c :: t2) ≠ "" :=
        joinStr_ne_empty sep (c :: t2) (by simp) (fun s hs => ha s (by simp [hs]))
      have hJd : (joinStr sep (c :: t2)).data ≠ [] := by
        intro hd
        exact hJ (String.ext hd)
      show (b ++ sep ++ joinStr sep (c :: t2)).data.getLast? = a.data.getLast?
      rw [String.data_append, String.data_append, List.append_assoc,
        List.getLast?_append_of_ne_nil _ (by simp [hJd]),
        List.getLast?_append_of_ne_nil _ hJd]
      exact ih a (fun s hs => ha s (by simp [hs])) hlast

theorem fmtUnit_last_char_ne_d (v : Int) (nm : String)
    (hnm : nm = "years" ∨ nm = "days" ∨ nm = "hours" ∨ nm = "minutes") :
    (fmtUnit v nm).data.getLast? ≠ some 'd' := by
  unfold fmtUnit
  rcases hnm with rfl | rfl | rfl | rfl <;> split <;>
    · rw [String.data_append, List.getLast?_append_of_ne_nil _ (by decide)]
      decide

theorem uptimeComponents_last_ne_d (x : Int) :
    ∀ s ∈ uptimeComponents x, s.data.getLast? ≠ some 'd' := by
  intro s hs
  unfold uptimeComponents uptimeUnitVals at hs
  simp only [List.mem_map, List.mem_filter] at hs
  obtain ⟨p, ⟨hp, _⟩, rfl⟩ := hs
  simp only [List.mem_cons, List.not_mem_nil, or_false] at hp
  rcases hp with h | h | h | h <;>
    · subst h
      exact fmtUnit_last_char_ne_d _ _ (by simp)

theorem uptimeComponents_ne_nil_of_ge60 (x : Int) (h60 : 60 ≤ x) :
    uptimeComponents x ≠ [] := by
  rw [uptimeComponents_eq_append]
  intro heq
  rw [List.append_eq_nil] at heq
  obtain ⟨h123, h4⟩ := heq
  rw [List.append_eq_nil] at h123
  obtain ⟨h12, h3⟩ := h123
  rw [List.append_eq_nil] at h12
  obtain ⟨h1, h2⟩ := h12
  have c1 : x / 31536000 = 0 := by by_contra hc; simp [hc] at h1
  have c2 : x % 31536000 / 86400 = 0 := by by_contra hc; simp [hc] at h2
  have c3 : x % 86400 / 3600 = 0 := by by_contra hc; simp [hc] at h3
  have c4 : x % 3600 / 60 = 0 := by by_contra hc; simp [hc] at h4
  omega

theorem uptimeComponents_all_ne_empty (x : Int) :
    ∀ s ∈ uptimeComponents x, s ≠ "" := by
  intro s hsm
  unfold uptimeComponents at hsm
  simp only [List.mem_map] at hsm
  obtain ⟨p, hp, rfl⟩ := hsm
  exact fmtUnit_ne_empty p.1 p.2

/-- C6: the PHP-uptime derivation and rendering.  The computed uptime is
`now - start` exactly when the start timestamp is positive and the difference
is positive, else 0; and the code rendering `format_timedelta` agrees with
the specification-side `uptimeRendered` (fresh-start sentinel at zero,
`<n> seconds` under one minute, otherwise the up-to-three largest non-zero
units among years/days/hours/minutes in that order, singular/plural applied,
joined by a comma) — including the spec example `3700 → "1 hour, 1 minute"`. -/
theorem uptime_rendering_spec (start_ts now_ts : Int) :
    uptime_seconds start_ts now_ts =
      (if start_ts > 0 ∧ now_ts - start_ts > 0 then now_ts - start_ts else 0) ∧
    format_timedelta_int (uptime_seconds start_ts now_ts) =
      uptimeRendered (uptime_seconds start_ts now_ts) ∧
    format_timedelta_int 3700 = "1 hour, 1 minute" ∧
    format_timedelta_int 45 = "45 seconds" ∧
    format_timedelta_int 0 = "N/A or Fresh Start" := by
  refine ⟨?_, ft_eq _, by decide, by decide, by decide⟩
  unfold uptime_seconds
  split_ifs with h1 h2 <;> first | rfl | omega

theorem ftInt_shapes (x : Int) :
    (x ≤ 0 → format_timedelta_int x = "N/A or Fresh Start") ∧
    (0 < x → x < 60 → format_timedelta_int x = toString x ++ " seconds") ∧
    (60 ≤ x → ∃ l, l ≠ [] ∧ l.length ≤ 3 ∧ format_timedelta_int x = joinStr ", " l) ∧
    format_timedelta_int x ≠ "Just started" := by
  refine ⟨?_, ?_, ?_, ?_⟩
  · intro h; simp [format_timedelta_int, h]
  · intro h1 h2
    rw [ft_eq]
    unfold uptimeRendered
    rw [if_neg (by omega), if_pos h2]
  · intro h60
    rw [ft_eq]
    unfold uptimeRendered
    rw [if_neg (by omega), if_neg (by omega)]
    refine ⟨(uptimeComponents x).take 3, ?_, ?_, rfl⟩
    · have hne := uptimeComponents_ne_nil_of_ge60 x h60
      cases hcc : uptimeComponents x with
      | nil => exact absurd hcc hne
      | cons a t => simp [hcc]
    · simp [List.length_take]
  · rw [ft_eq]
    unfold uptimeRendered
    split_ifs with h1 h2
    · decide
    · intro h
      have h2d : (toString x ++ " seconds").data.getLast?
          = ("Just started" : String).data.getLast? := by rw [h]
      rw [String.data_append,
        List.getLast?_append_of_ne_nil _ (by decide)] at h2d
      exact absurd h2d (by decide)
    · have h60 : 60 ≤ x := by omega
      have hcomps := uptimeComponents_ne_nil_of_ge60 x h60
      cases hga : ((uptimeComponents x).take 3).getLast? with
      | none =>
        rw [List.getLast?_eq_none_iff, List.take_eq_nil_iff] at hga
        rcases hga with hga | hga
        · exact absurd hga (by decide)
        · exact absurd hga hcomps
      | some a =>
        have hmem : a ∈ uptimeComponents x :=
          List.mem_of_mem_take (mem_of_getLast?_eq_some hga)
        have hne_d : a.data.getLast? ≠ some 'd' :=
          uptimeComponents_last_ne_d x a hmem
        have hall : ∀ s ∈ (uptimeComponents x).take 3, s ≠ "" :=
          fun s hs => uptimeComponents_all_ne_empty x s (List.mem_of_mem_take hs)
        have hlast := joinStr_getLast_char ", " _ a hall hga
        intro h
        rw [h] at hlast
        exact hne_d (hlast.symm.trans (by decide))

/-- C10 counterexample: on the string input `"inf"`, `float()` succeeds but
`int()` raises an `OverflowError` that `safe_int`'s
`except (ValueError, TypeError)` handler does not catch, so the real
`format_timedelta` raises instead of returning any of the three claimed
string shapes. -/
theorem format_timedelta_overflow_raises :
    format_timedelta (.str "inf")
      = .error "OverflowError: cannot convert float infinity to integer" ∧
    ∀ s, format_timedelta (.str "inf") ≠ .ok s := by
  have h : format_timedelta (.str "inf")
      = .error "OverflowError: cannot convert float infinity to integer" := by rfl
  exact ⟨h, fun s hs => by rw [h] at hs; exact Except.noConfusion hs⟩

/-- C10 (amended): on every input whose `int(float(.))` coercion returns a
value `x`, `format_timedelta` returns exactly one of three shapes — the
fresh-start sentinel for `x ≤ 0`, `<x> seconds` for `0 < x < 60`, and a
comma-joined list of one to three unit components for `x ≥ 60` — and the
fourth literal `Just started` is never returned for any input; on inputs
whose coercion raises the uncaught `OverflowError` (such as the string
`"inf"`), `format_timedelta` propagates that error instead of returning a
string. -/
theorem format_timedelta_three_shapes (v : PyValue) :
    (∀ x, safe_int v = .ok x →
      format_timedelta v = .ok (format_timedelta_int x) ∧
      (x ≤ 0 → format_timedelta v = .ok "N/A or Fresh Start") ∧
      (0 < x → x < 60 → format_timedelta v = .ok (toString x ++ " seconds")) ∧
      (60 ≤ x → ∃ l, l ≠ [] ∧ l.length ≤ 3 ∧
        format_timedelta v = .ok (joinStr ", " l))) ∧
    (∀ e, safe_int v = .error e → format_timedelta v = .error e) ∧
    format_timedelta v ≠ .ok "Just started" := by
  have hm : ∀ x, safe_int v = .ok x →
      format_timedelta v = .ok (format_timedelta_int x) := by
    intro x hx
    simp [format_timedelta, hx, bind, Except.bind, pure, Except.pure]
  refine ⟨?_, ?_, ?_⟩
  · intro x hx
    have h0 := hm x hx
    obtain ⟨s1, s2, s3, _⟩ := ftInt_shapes x
    refine ⟨h0, ?_, ?_, ?_⟩
    · intro hle; rw [h0, s1 hle]
    · intro h1 h2; rw [h0, s2 h1 h2]
    · intro h60
      obtain ⟨l, hl1, hl2, hl3⟩ := s3 h60
      exact ⟨l, hl1, hl2, by rw [h0, hl3]⟩
  · intro e he
    simp [format_timedelta, he, bind, Except.bind]
  · cases hs : safe_int v with
    | error e =>
      simp [format_timedelta, hs, bind, Except.bind]
    | ok x =>
      rw [hm x hs]
      intro hc
      rw [Except.ok.injEq] at hc
      exact (ftInt_shapes x).2.2.2 hc

/-- Witness for the amended C10 at the concrete inputs `"45e0"` (the string
coerces to 45 through the exponent grammar), 0 and 3700. -/
theorem format_timedelta_three_shapes_witness :
    format_timedelta (.str "45e0") = .ok "45 seconds" ∧
    format_timedelta (.int 0) = .ok "N/A or Fresh Start" ∧
    (∃ l, l ≠ [] ∧ l.length ≤ 3 ∧
      format_timedelta (.int 3700) = .ok (joinStr ", " l)) := by
  refine ⟨?_,
    (((format_timedelta_three_shapes (.int 0)).1 0 (by rfl)).2.1 (by decide)),
    (((format_timedelta_three_shapes (.int 3700)).1 3700 (by rfl)).2.2.2 (by decide))⟩
  have h := ((format_timedelta_three_shapes (.str "45e0")).1 45 (by rfl)).2.2.1
    (by decide) (by decide)
  rw [h]
  rfl

/-- C7: the storage fallback policy.  When both coerced storage fields are
zero, the used display is the `Data Missing` sentinel and the free display is
`format_bytes` of the system-level `freespace` annotated as system
freespace; when at least one is non-zero, both are rendered with
`format_bytes` directly.  The coercions and renderings are fallible, so the
policy is stated over the runs where they return. -/
theorem storage_fallback_policy (skvs syskvs : List (String × PyValue)) :
    (∀ fs fsd, safe_int (lookupD skvs "used" .none) = .ok 0 →
      safe_int (lookupD skvs "free" .none) = .ok 0 →
      safe_int (lookupD syskvs "freespace" .none) = .ok fs →
      format_bytes (.int fs) = .ok fsd →
      storageDisplays (.dict skvs) (.dict syskvs) =
        .ok ("0 Bytes (Data Missing)", fsd ++ " (System Freespace)")) ∧
    (∀ u f ud fd, safe_int (lookupD skvs "used" .none) = .ok u →
      safe_int (lookupD skvs "free" .none) = .ok f →
      ¬ (u = 0 ∧ f = 0) →
      format_bytes (.int u) = .ok ud →
      format_bytes (.int f) = .ok fd →
      storageDisplays (.dict skvs) (.dict syskvs) = .ok (ud, fd)) := by
  constructor
  · intro fs fsd hu hf hfs hfsd
    simp [storageDisplays, pyGet, bind, Except.bind, pure, Except.pure,
      hu, hf, hfs, hfsd]
  · intro u f ud fd hu hf hnz hud hfd
    simp only [storageDisplays, pyGet, bind, Except.bind, pure, Except.pure,
      hu, hf, hud, hfd]
    rw [if_neg hnz]

/-- Witness for C7: the spec example `used=0, free=0, system freespace
5000`, rendering `4.88 KB (System Freespace)`. -/
theorem storage_fallback_policy_witness :
    storageDisplays (.dict [("used", .int 0), ("free", .int 0)])
        (.dict [("freespace", .int 5000)]) =
      .ok ("0 Bytes (Data Missing)", "4.88 KB" ++ " (System Freespace)") :=
  (storage_fallback_policy [("used", .int 0), ("free", .int 0)]
    [("freespace", .int 5000)]).1 5000 "4.88 KB" (by rfl) (by rfl) (by rfl) (by rfl)

theorem appLines_length (es : List PyValue)
    (h : ∀ e ∈ es, (∃ s, e = .str s) ∨ (∃ d, e = .dict d)) :
    (appLines es).length = es.length := by
  induction es with
  | nil => rfl
  | cons e t ih =>
    rcases h e (by simp) with ⟨s, rfl⟩ | ⟨d, rfl⟩ <;>
      simp [appLines, ih (fun x hx => h x (by simp [hx]))]

/-- C8 (amended): the app summary degrades to the fixed diagnostic string
and `Data Missing` sentinel counts when the app field is absent, not a
mapping, an empty mapping (the truthiness guard), or has a non-sequence
`enabled`/`installed` sub-field; for a non-empty mapping whose sub-fields
are sequences it renders one `name: vVersion-or-N/A` line per bare-name or
record entry, lexicographically sorted and newline-joined, with counts equal
to the raw list lengths. -/
theorem appSummary_cases (okvs : List (String × PyValue)) :
    (List.lookup "app" okvs = Option.none →
      appSummary (.dict okvs) = .ok appDegraded) ∧
    (∀ v, List.lookup "app" okvs = some v → (∀ akvs, v ≠ .dict akvs) →
      appSummary (.dict okvs) = .ok appDegraded) ∧
    (List.lookup "app" okvs = some (.dict []) →
      appSummary (.dict okvs) = .ok appDegraded) ∧
    (∀ akvs, List.lookup "app" okvs = some (.dict akvs) → akvs ≠ [] →
      (isListV (lookupD akvs "enabled" (.list [])) = false ∨
       isListV (lookupD akvs "installed" (.list [])) = false) →
      appSummary (.dict okvs) = .ok appDegraded) ∧
    (∀ akvs es is0, List.lookup "app" okvs = some (.dict akvs) → akvs ≠ [] →
      lookupD akvs "enabled" (.list []) = .list es →
      lookupD akvs "installed" (.list []) = .list is0 →
      ∃ L, appSummary (.dict okvs) =
          .ok (joinStr "\n" L, toString es.length, toString is0.length) ∧
        L.Sorted (fun a b => a ≤ b) ∧ List.Perm L (appLines es) ∧
        ((∀ e ∈ es, (∃ s, e = .str s) ∨ (∃ d, e = .dict d)) → L.length = es.length)) := by
  refine ⟨?_, ?_, ?_, ?_, ?_⟩
  · intro h
    simp [appSummary, pyGet, bind, Except.bind, pure, Except.pure, lookupD, h]
  · intro v h hnd
    cases v <;>
      simp [appSummary, pyGet, bind, Except.bind, pure, Except.pure, lookupD, h]
    exact absurd rfl (hnd _)
  · intro h
    simp [appSummary, pyGet, bind, Except.bind, pure, Except.pure, lookupD, h]
  · intro akvs h hne hbad
    have happ : lookupD okvs "app" .none = .dict akvs := by simp [lookupD, h]
    have hem : akvs.isEmpty = false := by
      cases akvs with
      | nil => exact absurd rfl hne
      | cons a t => rfl
    simp only [appSummary, pyGet, bind, Except.bind, pure, Except.pure, happ, hem,
      Bool.false_eq_true, if_false]
    rcases hbad with hb | hb <;>
      cases he : lookupD akvs "enabled" (.list []) <;>
      cases hi : lookupD akvs "installed" (.list []) <;>
      first
        | rfl
        | (rw [he] at hb; simp [isListV] at hb)
        | (rw [hi] at hb; simp [isListV] at hb)
  · intro akvs es is0 h hne he hi
    have happ : lookupD okvs "app" .none = .dict akvs := by simp [lookupD, h]
    have hem : akvs.isEmpty = false := by
      cases akvs with
      | nil => exact absurd rfl hne
      | cons a t => rfl
    refine ⟨List.insertionSort (fun a b => a ≤ b) (appLines es), ?_, ?_, ?_, ?_⟩
    · simp only [appSummary, pyGet, bind, Except.bind, pure, Except.pure, happ, hem,
        Bool.false_eq_true, if_false]
      rw [he, hi]
    · exact List.sorted_insertionSort _ _
    · exact List.perm_insertionSort _ _
    · intro hsh
      rw [List.Perm.length_eq (List.perm_insertionSort _ _)]
      exact appLines_length es hsh

/-- Witness for the amended C8: the well-formed example app mapping and the
absent-app case, both through `appSummary_cases`. -/
theorem appSummary_cases_witness :
    (∃ L, appSummary (.dict appOkvsEx) =
        .ok (joinStr "\n" L, toString appEnabledEx.length, toString appInstalledEx.length) ∧
      L.Sorted (fun a b => a ≤ b) ∧ List.Perm L (appLines appEnabledEx) ∧
      ((∀ e ∈ appEnabledEx, (∃ s, e = .str s) ∨ (∃ d, e = .dict d)) →
        L.length = appEnabledEx.length)) ∧
    appSummary (.dict []) = .ok appDegraded :=
  ⟨(appSummary_cases appOkvsEx).2.2.2.2 appAkvsEx appEnabledEx appInstalledEx rfl
      (by simp [appAkvsEx]) rfl rfl,
   (appSummary_cases []).1 rfl⟩

theorem lookup_applyUpdates (us : List (String × String)) (k w : String) :
    ∀ ls : List (String × String), List.lookup k ls = some w →
      List.lookup k (applyUpdates ls us) = some ((List.lookup k us).getD w) := by
  intro ls
  induction ls with
  | nil => intro h; simp at h
  | cons p t ih =>
    intro h
    obtain ⟨a, b⟩ := p
    by_cases hk : (k == a) = true
    · have hb : b = w := by simpa [List.lookup, hk] using h
      subst hb
      have hka : k = a := eq_of_beq hk
      subst hka
      cases hu : List.lookup k us with
      | none => simp [applyUpdates, List.lookup, hk, hu]
      | some v2 => simp [applyUpdates, List.lookup, hk, hu]
    · have hkf : (k == a) = false := by
        cases hq : (k == a) with
        | true => exact absurd hq hk
        | false => rfl
      have hlt : List.lookup k t = some w := by simpa [List.lookup, hkf] using h
      have hrec := ih hlt
      cases hu : List.lookup a us with
      | none => simpa [applyUpdates, List.lookup, hkf, hu] using hrec
      | some v2 => simpa [applyUpdates, List.lookup, hkf, hu] using hrec

/-- C1 (amended): fetch completions carry no configuration-identity check —
after `apply_new_config(B)` with a fetch for A still pending (position 0,
tagged with A's URL and token), that stale completion's payload is applied
to the display: the version label shows the stale payload's value instead of
the loading placeholder. -/
theorem stale_completion_overwrites (A B : Config) (now_ts : Int) (data : PyValue)
    (snap : Snapshot) (vv : String)
    (hok : update_gui_metrics now_ts data = .ok snap)
    (hv : List.lookup "version_val" snap.updates = some vv) :
    (apply_new_config (initState A) B).pending.get? 0
      = some { nc_url := A.url, nc_token := A.token } ∧
    List.lookup "version_val"
      (complete_success (apply_new_config (initState A) B) 0 now_ts data).metric_labels
      = some vv := by
  constructor
  · rfl
  · have hbase : List.lookup "version_val"
        (apply_new_config (initState A) B).metric_labels = some "N/A" := by rfl
    unfold complete_success on_data_fetched
    rw [hok]
    rw [lookup_applyUpdates snap.updates "version_val" "N/A" _ hbase, hv]
    rfl

/-- Witness for the amended C1, using configuration A's concrete payload. -/
theorem stale_completion_overwrites_witness :
    (apply_new_config (initState cfgA) cfgB).pending.get? 0
      = some { nc_url := cfgA.url, nc_token := cfgA.token } ∧
    List.lookup "version_val"
      (complete_success (apply_new_config (initState cfgA) cfgB) 0 1700000000 payloadA).metric_labels
      = some "27.1.1-A" := by
  have hok : ∃ snap, update_gui_metrics 1700000000 payloadA = .ok snap := ⟨_, rfl⟩
  obtain ⟨snap, hsnap⟩ := hok
  have hv : List.lookup "version_val" snap.updates = some "27.1.1-A" := by
    have h2 : update_gui_metrics 1700000000 payloadA = .ok snap := hsnap
    rw [show snap = (match update_gui_metrics 1700000000 payloadA with
        | .ok s => s
        | .error _ => snap) from by rw [h2]]
    rfl
  exact stale_completion_overwrites cfgA cfgB 1700000000 payloadA snap "27.1.1-A" hsnap hv

/-- C1 counterexample: concrete run — configuration A's fetch is outstanding
(worker 0 tagged with A's URL), `apply_new_config(B)` resets the display to
placeholders, and then A's stale completion rewrites the version label with
A's payload data anyway. -/
theorem stale_fetch_not_discarded :
    cfgA ≠ cfgB ∧
    (apply_new_config (initState cfgA) cfgB).pending.get? 0
      = some { nc_url := cfgA.url, nc_token := cfgA.token } ∧
    List.lookup "version_val" (apply_new_config (initState cfgA) cfgB).metric_labels
      = some "N/A" ∧
    List.lookup "version_val"
      (complete_success (apply_new_config (initState cfgA) cfgB) 0 1700000000 payloadA).metric_labels
      = some "27.1.1-A" := by
  refine ⟨by decide, rfl, by decide, by decide⟩

theorem lookupD_of_wfDictOpt {kvs : List (String × PyValue)} {k : String}
    (h : wfDictOpt kvs k = true) :
    lookupD kvs k (.dict []) = .dict (subDict kvs k) := by
  unfold wfDictOpt at h
  unfold lookupD subDict
  cases hl : List.lookup k kvs with
  | none => rfl
  | some v =>
    rw [hl] at h
    cases v <;> simp [isDictV] at h <;> rfl

theorem wfNum_lookupD {kvs : List (String × PyValue)} {k : String}
    (h : wfNumOpt kvs k = true) : wfNum (lookupD kvs k (.int 0)) = true := by
  unfold wfNumOpt at h
  unfold lookupD
  cases hl : List.lookup k kvs with
  | none => rfl
  | some v => rw [hl] at h; simpa using h

theorem wfNumF_lookupD {kvs : List (String × PyValue)} {k : String}
    (h : wfNumFOpt kvs k = true) : wfNumF (lookupD kvs k (.int 0)) = true := by
  unfold wfNumFOpt at h
  unfold lookupD
  cases hl : List.lookup k kvs with
  | none => decide
  | some v => rw [hl] at h; simpa using h

theorem fmt2f_ok {v : PyValue} (h : wfNumF v = true) : ∃ s, fmt2f v = .ok s := by
  cases v with
  | int n =>
    have hb : n.natAbs < ovThreshold := by simpa [wfNumF] using h
    obtain ⟨y, hy⟩ := safe_int_int_ok hb
    exact ⟨renderFixed2 y 1,
      by simp [fmt2f, hy, bind, Except.bind, pure, Except.pure]⟩
  | bool b => exact ⟨_, rfl⟩
  | none => simp [wfNumF] at h
  | str s => simp [wfNumF] at h
  | list xs => simp [wfNumF] at h
  | dict kvs => simp [wfNumF] at h

theorem fmtComma_ok {v : PyValue} (h : wfNum v = true) : ∃ s, fmtComma v = .ok s := by
  cases v <;> first | exact ⟨_, rfl⟩ | simp [wfNum] at h

theorem storageDisplays_dict_ok (skvs syskvs : List (String × PyValue))
    (hcu : wfCoerceOpt skvs "used" PyValue.none = true)
    (hcf : wfCoerceOpt skvs "free" PyValue.none = true)
    (hcs : wfCoerceOpt syskvs "freespace" PyValue.none = true) :
    ∃ p, storageDisplays (.dict skvs) (.dict syskvs) = .ok p := by
  obtain ⟨f, hf1, hfb⟩ := wfCoerce_spec hcf
  obtain ⟨u, hu1, hub⟩ := wfCoerce_spec hcu
  obtain ⟨fs, hfs1, hfsb⟩ := wfCoerce_spec hcs
  obtain ⟨ud, hud⟩ := format_bytes_ok_int (Nat.lt_trans hub two_pow_1000_lt_ovThreshold)
  obtain ⟨fd, hfd⟩ := format_bytes_ok_int (Nat.lt_trans hfb two_pow_1000_lt_ovThreshold)
  obtain ⟨fsd, hfsd⟩ := format_bytes_ok_int (Nat.lt_trans hfsb two_pow_1000_lt_ovThreshold)
  by_cases hz : u = 0 ∧ f = 0
  · refine ⟨("0 Bytes (Data Missing)", fsd ++ " (System Freespace)"), ?_⟩
    simp only [storageDisplays, pyGet, bind, Except.bind, pure, Except.pure,
      hf1, hu1, hfs1, hfsd]
    rw [if_pos hz]
  · refine ⟨(ud, fd), ?_⟩
    simp only [storageDisplays, pyGet, bind, Except.bind, pure, Except.pure,
      hf1, hu1, hud, hfd]
    rw [if_neg hz]

theorem appSummary_dict_ok (okvs : List (String × PyValue)) :
    ∃ t, appSummary (.dict okvs) = .ok t := by
  simp only [appSummary, pyGet, bind, Except.bind]
  cases lookupD okvs "app" PyValue.none with
  | dict akvs =>
    dsimp only
    cases hak : akvs.isEmpty with
    | true => exact ⟨_, rfl⟩
    | false =>
      rw [if_neg (by simp)]
      cases lookupD akvs "enabled" (PyValue.list []) <;>
        cases lookupD akvs "installed" (PyValue.list []) <;> exact ⟨_, rfl⟩
  | none => exact ⟨_, rfl⟩
  | bool b => exact ⟨_, rfl⟩
  | int n => exact ⟨_, rfl⟩
  | str s => exact ⟨_, rfl⟩
  | list xs => exact ⟨_, rfl⟩

theorem cpuLoadOf_cons3 (a b c : PyValue) (rest : List PyValue)
    (l : List (String × PyValue))
    (hl : lookupD l "cpuload" (.list [.int 0, .int 0, .int 0]) = .list (a :: b :: c :: rest)) :
    cpuLoadOf (.dict l) = .ok (a, b, c) := by
  simp [cpuLoadOf, pyGet, hl, pyLen, pyIndexNat, bind, Except.bind, pure, Except.pure]
  split_ifs <;> first | rfl | (exfalso; omega)

theorem cpuLoadOf_ok (l : List (String × PyValue)) (h : wfCpu l = true) :
    ∃ t, cpuLoadOf (.dict l) = .ok t ∧
      wfNumF t.1 = true ∧ wfNumF t.2.1 = true ∧ wfNumF t.2.2 = true := by
  have hz : wfNumF (.int 0) = true := by decide
  unfold wfCpu at h
  cases hl : List.lookup "cpuload" l with
  | none =>
    have hcd : lookupD l "cpuload" (.list [.int 0, .int 0, .int 0])
        = .list [.int 0, .int 0, .int 0] := by simp [lookupD, hl]
    exact ⟨(.int 0, .int 0, .int 0), cpuLoadOf_cons3 _ _ _ _ l hcd, hz, hz, hz⟩
  | some v =>
    rw [hl] at h
    cases v with
    | list xs =>
      have hcd : lookupD l "cpuload" (.list [.int 0, .int 0, .int 0]) = .list xs := by
        simp [lookupD, hl]
      match xs, h, hcd with
      | [], h, hcd =>
        refine ⟨(.int 0, .int 0, .int 0), ?_, hz, hz, hz⟩
        simp [cpuLoadOf, pyGet, hcd, pyLen, pyIndexNat, bind, Except.bind, pure, Except.pure]
      | [a], h, hcd =>
        have ha : wfNumF a = true := by simpa using h
        have h0 : ((([a] : List PyValue).length : Int)) > 0 := by simp
        refine ⟨(a, .int 0, .int 0), ?_, ha, hz, hz⟩
        simp [cpuLoadOf, pyGet, hcd, pyLen, pyIndexNat, bind, Except.bind, pure, Except.pure, h0]
      | [a, b], h, hcd =>
        have hab : wfNumF a = true ∧ wfNumF b = true := by simpa using h
        have h0 : ((([a, b] : List PyValue).length : Int)) > 0 := by simp
        have h1 : ((([a, b] : List PyValue).length : Int)) > 1 := by simp
        refine ⟨(a, b, .int 0), ?_, hab.1, hab.2, hz⟩
        simp [cpuLoadOf, pyGet, hcd, pyLen, pyIndexNat, bind, Except.bind, pure, Except.pure,
          h0, h1]
      | a :: b :: c :: rest, h, hcd =>
        have habc : wfNumF a = true ∧ wfNumF b = true ∧ wfNumF c = true := by
          simpa using h
        exact ⟨(a, b, c), cpuLoadOf_cons3 a b c rest l hcd, habc.1, habc.2.1, habc.2.2⟩
    | none => simp at h
    | bool b => simp at h
    | int n => simp at h
    | str s => simp at h
    | dict d => simp at h

theorem ramSwap_ok (l : List (String × PyValue))
    (h1 : wfCoerceOpt l "mem_total" (.int 0) = true)
    (h2 : wfCoerceOpt l "mem_free" (.int 0) = true)
    (h3 : wfCoerceOpt l "swap_total" (.int 0) = true)
    (h4 : wfCoerceOpt l "swap_free" (.int 0) = true) :
    ∃ rs, ramSwap (.dict l) = .ok rs ∧
      rs.ram_used.natAbs < 2 ^ 1011 ∧ rs.ram_total.natAbs < 2 ^ 1011 ∧
      rs.swap_used.natAbs < 2 ^ 1011 := by
  obtain ⟨a, ha, hba⟩ := wfCoerce_spec h1
  obtain ⟨b, hb, hbb⟩ := wfCoerce_spec h2
  obtain ⟨c, hc, hbc⟩ := wfCoerce_spec h3
  obtain ⟨d, hd, hbd⟩ := wfCoerce_spec h4
  refine ⟨{ ram_total_kb := a, ram_free_kb := b, swap_total_kb := c, swap_free_kb := d,
            ram_total := a * KB_TO_BYTES, ram_used := (a - b) * KB_TO_BYTES,
            swap_total := c * KB_TO_BYTES, swap_used := (c - d) * KB_TO_BYTES },
          ?_, ?_, ?_, ?_⟩
  · simp [ramSwap, pyGet, bind, Except.bind, pure, Except.pure, ha, hb, hc, hd]
  · dsimp only
    simp only [KB_TO_BYTES]
    have he : (2 : Nat) ^ 1011 = 2 ^ 1000 * 2048 := by
      rw [show (2048 : Nat) = 2 ^ 11 from rfl, ← pow_add]
    rw [he]
    generalize (2 : Nat) ^ 1000 = Q at hba hbb hbc hbd ⊢
    omega
  · dsimp only
    simp only [KB_TO_BYTES]
    have he : (2 : Nat) ^ 1011 = 2 ^ 1000 * 2048 := by
      rw [show (2048 : Nat) = 2 ^ 11 from rfl, ← pow_add]
    rw [he]
    generalize (2 : Nat) ^ 1000 = Q at hba hbb hbc hbd ⊢
    omega
  · dsimp only
    simp only [KB_TO_BYTES]
    have he : (2 : Nat) ^ 1011 = 2 ^ 1000 * 2048 := by
      rw [show (2048 : Nat) = 2 ^ 11 from rfl, ← pow_add]
    rw [he]
    generalize (2 : Nat) ^ 1000 = Q at hba hbb hbc hbd ⊢
    omega

/-- C3 (amended): `update_gui_metrics` is total on payloads that are
well-formed at the required spine and numeric leaves (`ocs.data` with
dict-valued `nextcloud`, `server` and `activeUsers` groups, optional
sub-groups dicts when present, `cpuload` an in-range numeric list when
present, `num_files` numeric and `opcache_hit_rate` in float-format range
when present, and every field flowing through the `safe_int` coercion free
of the uncaught `OverflowError` with a bounded value): for every such
payload and any in-float-range current time it produces a snapshot whose
update mapping carries exactly the full fixed key set, with sentinel values
for all absent optional fields.  Payloads missing the required spine — or
carrying a coercion-raising numeric string such as `"inf"` — instead make
the computation fail, surfaced by the caller as a data-processing error
(see the counterexample). -/
theorem update_gui_metrics_total (now_ts : Int) (data : PyValue)
    (hwf : wfPayload data = true) (hnow : now_ts.natAbs < 2 ^ 53) :
    ∃ s, update_gui_metrics now_ts data = .ok s ∧
      s.updates.map Prod.fst = snapshotKeys := by
  cases data with
  | none => simp [wfPayload] at hwf
  | bool b => simp [wfPayload] at hwf
  | int n => simp [wfPayload] at hwf
  | str s => simp [wfPayload] at hwf
  | list xs => simp [wfPayload] at hwf
  | dict top =>
    unfold wfPayload at hwf
    dsimp only at hwf
    cases hocs : List.lookup "ocs" top with
    | none => rw [hocs] at hwf; simp at hwf
    | some vocs =>
      rw [hocs] at hwf
      cases vocs with
      | none => simp at hwf
      | bool b => simp at hwf
      | int n => simp at hwf
      | str s => simp at hwf
      | list xs => simp at hwf
      | dict ocs =>
        dsimp only at hwf
        cases hod : List.lookup "data" ocs with
        | none => rw [hod] at hwf; simp at hwf
        | some vod =>
          rw [hod] at hwf
          cases vod with
          | none => simp at hwf
          | bool b => simp at hwf
          | int n => simp at hwf
          | str s => simp at hwf
          | list xs => simp at hwf
          | dict od =>
            dsimp only at hwf
            cases hnc : List.lookup "nextcloud" od with
            | none => rw [hnc] at hwf; simp at hwf
            | some vnc =>
              rw [hnc] at hwf
              cases hsv : List.lookup "server" od with
              | none => rw [hsv] at hwf; cases vnc <;> simp at hwf
              | some vsv =>
                rw [hsv] at hwf
                cases hau : List.lookup "activeUsers" od with
                | none => rw [hau] at hwf; cases vnc <;> cases vsv <;> simp at hwf
                | some vau =>
                  rw [hau] at hwf
                  cases vnc with
                  | none => simp at hwf
                  | bool b => simp at hwf
                  | int n => simp at hwf
                  | str s => simp at hwf
                  | list xs => simp at hwf
                  | dict nc =>
                    cases vsv with
                    | none => simp at hwf
                    | bool b => simp at hwf
                    | int n => simp at hwf
                    | str s => simp at hwf
                    | list xs => simp at hwf
                    | dict sv =>
                      cases vau with
                      | none => simp at hwf
                      | bool b => simp at hwf
                      | int n => simp at hwf
                      | str s => simp at hwf
                      | list xs => simp at hwf
                      | dict au =>
                        dsimp only at hwf
                        simp only [Bool.and_eq_true] at hwf
                        obtain ⟨⟨⟨hsys, hsto⟩, w_sha⟩, hsrv⟩ := hwf
                        simp only [wfSystemGroup, Bool.and_eq_true] at hsys
                        obtain ⟨⟨⟨⟨⟨⟨w_sys, w_cpu⟩, c_mt⟩, c_mf⟩, c_swt⟩,
                          c_swf⟩, c_fs⟩ := hsys
                        simp only [wfStorageGroup, Bool.and_eq_true] at hsto
                        obtain ⟨⟨⟨w_sto, w_nf⟩, c_used⟩, c_free⟩ := hsto
                        simp only [wfServerGroup, Bool.and_eq_true] at hsrv
                        obtain ⟨⟨⟨⟨⟨⟨⟨⟨⟨⟨w_db, c_dbsz⟩, w_php⟩, c_phm⟩, w_opc⟩,
                          w_ost⟩, w_omem⟩, w_hit⟩, c_st⟩, c_omu⟩, c_omw⟩ := hsrv
                        have e_sys := lookupD_of_wfDictOpt w_sys
                        have e_sto := lookupD_of_wfDictOpt w_sto
                        have e_sha := lookupD_of_wfDictOpt w_sha
                        have e_db := lookupD_of_wfDictOpt w_db
                        have e_php := lookupD_of_wfDictOpt w_php
                        have e_opc := lookupD_of_wfDictOpt w_opc
                        have e_ost := lookupD_of_wfDictOpt w_ost
                        have e_omem := lookupD_of_wfDictOpt w_omem
                        obtain ⟨rsv, h_rs, hb_ru, hb_rt, hb_su⟩ :=
                          ramSwap_ok (subDict nc "system") c_mt c_mf c_swt c_swf
                        obtain ⟨rus, h_rus⟩ :=
                          format_bytes_ok_int (Nat.lt_trans hb_ru two_pow_1011_lt_ovThreshold)
                        obtain ⟨rts, h_rts⟩ :=
                          format_bytes_ok_int (Nat.lt_trans hb_rt two_pow_1011_lt_ovThreshold)
                        obtain ⟨sus, h_sus⟩ :=
                          format_bytes_ok_int (Nat.lt_trans hb_su two_pow_1011_lt_ovThreshold)
                        obtain ⟨cpu3, h_cpu, hcn1, hcn2, hcn3⟩ := cpuLoadOf_ok (subDict nc "system") w_cpu
                        obtain ⟨cs1, h_cpu1⟩ := fmt2f_ok hcn1
                        obtain ⟨cs2, h_cpu2⟩ := fmt2f_ok hcn2
                        obtain ⟨cs3, h_cpu3⟩ := fmt2f_ok hcn3
                        obtain ⟨hits, h_hit⟩ := fmt2f_ok (wfNumF_lookupD w_hit)
                        obtain ⟨files_s, h_files⟩ := fmtComma_ok (wfNum_lookupD w_nf)
                        obtain ⟨y_st, h_st, hb_st⟩ := wfCoerce_spec c_st
                        have h_up : format_timedelta (.int (uptime_seconds y_st now_ts))
                            = .ok (format_timedelta_int (uptime_seconds y_st now_ts)) := by
                          apply format_timedelta_ok_int
                          have h53 : (2 : Nat) ^ 53 = 9007199254740992 := by norm_num
                          rw [h53]
                          rw [h53] at hnow
                          unfold uptime_seconds
                          split_ifs with hcnd
                          · omega
                          · norm_num
                        obtain ⟨sdp, h_sd⟩ :=
                          storageDisplays_dict_ok (subDict nc "storage") (subDict nc "system")
                            c_used c_free c_fs
                        obtain ⟨apps, h_apps⟩ := appSummary_dict_ok od
                        obtain ⟨omus, h_omu⟩ := format_bytes_ok_of_wfCoerce c_omu
                        obtain ⟨omws, h_omw⟩ := format_bytes_ok_of_wfCoerce c_omw
                        obtain ⟨phms, h_phm⟩ := format_bytes_ok_of_wfCoerce c_phm
                        obtain ⟨y_db, h_dbv, hb_db⟩ := wfCoerce_spec c_dbsz
                        obtain ⟨dbs, h_dbs⟩ :=
                          format_bytes_ok_int (Nat.lt_trans hb_db two_pow_1000_lt_ovThreshold)
                        have e1 : pyIndex (PyValue.dict top) "ocs" = .ok (.dict ocs) := by
                          simp [pyIndex, hocs]
                        have e2 : pyIndex (PyValue.dict ocs) "data" = .ok (.dict od) := by
                          simp [pyIndex, hod]
                        have e3 : pyIndex (PyValue.dict od) "nextcloud" = .ok (.dict nc) := by
                          simp [pyIndex, hnc]
                        have e4 : pyIndex (PyValue.dict od) "server" = .ok (.dict sv) := by
                          simp [pyIndex, hsv]
                        have e5 : pyIndex (PyValue.dict od) "activeUsers" = .ok (.dict au) := by
                          simp [pyIndex, hau]
                        apply Exists.intro
                        constructor
                        · unfold update_gui_metrics
                          rw [e1]
                          dsimp only [bind, Except.bind, pure, Except.pure, pyGet]
                          rw [e2]
                          dsimp only [bind, Except.bind, pure, Except.pure, pyGet]
                          rw [e3, e4, e5]
                          dsimp only [bind, Except.bind, pure, Except.pure, pyGet]
                          rw [e_sys, e_sto, e_sha, e_db, e_php]
                          dsimp only [bind, Except.bind, pure, Except.pure, pyGet]
                          rw [e_opc]
                          dsimp only [bind, Except.bind, pure, Except.pure, pyGet]
                          rw [e_ost, e_omem]
                          dsimp only [bind, Except.bind, pure, Except.pure, pyGet]
                          rw [h_rs]
                          dsimp only [bind, Except.bind, pure, Except.pure, pyGet]
                          rw [h_rus, h_rts, h_sus]
                          dsimp only [bind, Except.bind, pure, Except.pure, pyGet]
                          rw [h_cpu]
                          dsimp only [bind, Except.bind, pure, Except.pure, pyGet]
                          rw [h_st]
                          dsimp only [bind, Except.bind, pure, Except.pure, pyGet]
                          rw [h_up]
                          dsimp only [bind, Except.bind, pure, Except.pure, pyGet]
                          rw [h_sd, h_apps]
                          dsimp only [bind, Except.bind, pure, Except.pure, pyGet]
                          rw [h_cpu1, h_cpu2, h_cpu3, h_hit, h_files]
                          dsimp only [bind, Except.bind, pure, Except.pure, pyGet]
                          rw [h_omu, h_omw]
                          dsimp only [bind, Except.bind, pure, Except.pure, pyGet]
                          rw [h_dbv]
                          dsimp only [bind, Except.bind, pure, Except.pure, pyGet]
                          rw [h_dbs]
                          dsimp only [bind, Except.bind, pure, Except.pure, pyGet]
                          rw [h_phm]
                        · rfl

/-- C3 counterexample: the payload `{}` (missing the required `ocs` group)
makes normalization fail — the claim's totality over payloads missing any
nested group does not hold — and so does a spine-complete payload whose
`mem_total` is the string `"inf"` (the `safe_int` coercion raises an
uncaught `OverflowError`); both failures are surfaced: the handler shows
the data-processing error status instead of populating the snapshot. -/
theorem update_gui_metrics_raises_on_missing_spine :
    (update_gui_metrics 0 (.dict [])).isOk = false ∧
    (on_data_fetched (blankState cfgA) 0 (.dict [])).status_message
      = "Error processing data" ∧
    (update_gui_metrics 0 payloadInfRam).isOk = false ∧
    (on_data_fetched (blankState cfgA) 0 payloadInfRam).status_message
      = "Error processing data" :=
  ⟨rfl, rfl, rfl, rfl⟩

/-- Witness for the amended C3 at the minimal spine-only payload: it is
well-formed, normalizes successfully, and the snapshot carries the full
fixed key set. -/
theorem update_gui_metrics_total_witness :
    wfPayload payloadMinimal = true ∧ (1700000000 : Int).natAbs < 2 ^ 53 ∧
    ∃ s, update_gui_metrics 1700000000 payloadMinimal = .ok s ∧
      s.updates.map Prod.fst = snapshotKeys :=
  ⟨rfl, by decide,
   update_gui_metrics_total 1700000000 payloadMinimal rfl (by decide)⟩
